import Mathlib

/-!
# drjit-core: LLVM backend binding, code arena and diagnostics

A shallow embedding of `src/llvm_api.cpp` and `log.cpp`.

* Pointers are natural numbers, `0` is `nullptr`.
* `size_t` / `uintptr_t` arithmetic is done modulo `2 ^ 64`, `uint32_t` arithmetic modulo `2 ^ 32`.
* C strings are lists of characters (the bytes before the terminating NUL).
* The process-wide static variables are the fields of `JitState`; every operation takes the
  state and returns the new one.
* Calls that leave the program (libc, libdl, the LLVM C API) take their results from an
  environment record and are written to an event trace.
-/

namespace DrJit

/-! ## Basic types -/

/-- A machine address; `0` is the null pointer. -/
abbrev Ptr := Nat

/-- Number of values of `size_t` / `uintptr_t` / `uint64_t`. -/
def SIZE_MOD : Nat := 2 ^ 64

/-- Number of values of `uint32_t` / `unsigned`. -/
def U32_MOD : Nat := 2 ^ 32

/-- Modelled from the spec: `log.h` is not among the sources; section 4.5 lists the severity
levels `Trace`, `Info`, `Warn`, `Error`. -/
inductive LogLevel
  | Trace
  | Info
  | Warn
  | Error
  deriving DecidableEq, Repr

/-- An argument handed to a function outside the program (a `printf`-style format, an LLVM
entry point): a C string, an integer, a pointer that is not null, or `nullptr`. -/
inductive Arg
  | str (s : List Char)
  | int (i : Int)
  | ptr (p : Ptr)
  | null
  deriving DecidableEq, Repr

/-- Observable actions of the program, in the order they happen. -/
inductive Event
  | dlopen (path : String)
  | dlsym (handle : Ptr) (symbol : String)
  | dlclose (handle : Ptr)
  | free (p : Ptr)
  | log (level : LogLevel) (fmt : String) (args : List Arg)
  | llvm (fn : String) (args : List Arg)
  deriving DecidableEq, Repr

/-- Function `jit_log(level, format, ...)`: writes one line to `stderr`, whatever the level. -/
def jit_log (level : LogLevel) (fmt : String) (args : List Arg) : List Event :=
  [Event.log level fmt args]

/-- Constant `EXIT_FAILURE` of `<cstdlib>`. -/
def EXIT_FAILURE : Nat := 1

/-! ## C string search -/

/-- The C string stored at the start of a memory region: the characters before the first NUL. -/
def cstr (m : List Char) : List Char :=
  m.takeWhile (fun c => c ≠ Char.ofNat 0)

/-- Offset of the first occurrence of `needle` in the list `hay`, if any. -/
def find_first (needle : List Char) : List Char → Option Nat
  | [] => if needle = [] then some 0 else none
  | c :: rest =>
    if needle.isPrefixOf (c :: rest) then some 0
    else (find_first needle rest).map (fun k => k + 1)

/-- Function `strstr(haystack, needle)`: offset of the first occurrence of `needle` in the C string at
`haystack`, or `none` for a null result. -/
def strstr (haystack : List Char) (needle : List Char) : Option Nat :=
  find_first needle (cstr haystack)

/-! ## Process-wide state -/

/-- The entry points resolved by `LOAD(...)` in `jit_llvm_init`, in the order of the source;
`jit_llvm_shutdown` clears the same ones with `Z(...)`. -/
def required_symbols : List String :=
  ["LLVMLinkInMCJIT", "LLVMInitializeX86Target", "LLVMInitializeX86TargetInfo",
   "LLVMInitializeX86TargetMC", "LLVMInitializeX86AsmPrinter",
   "LLVMInitializeX86Disassembler", "LLVMGetGlobalContext", "LLVMGetDefaultTargetTriple",
   "LLVMGetHostCPUName", "LLVMGetHostCPUFeatures", "LLVMDisposeMessage", "LLVMCreateDisasm",
   "LLVMDisasmDispose", "LLVMSetDisasmOptions", "LLVMModuleCreateWithName",
   "LLVMCreateMCJITCompilerForModule", "LLVMCreateSimpleMCJITMemoryManager",
   "LLVMDisposeExecutionEngine", "LLVMAddModule", "LLVMDisposeModule",
   "LLVMCreateMemoryBufferWithMemoryRange", "LLVMParseIRInContext",
   "LLVMPrintModuleToString", "LLVMGetFunctionAddress", "LLVMRemoveModule",
   "LLVMDisasmInstruction"]

/-- The static variables of `llvm_api.cpp`. `fn_table` holds the 26 function pointers
(`static ... (*LLVMxxx)(...) = nullptr`), keyed by name. Strings owned by the toolchain
(`char *`) are `none` when the pointer is null. The last field is not a variable of the
program: `jit_llvm_mem_freed` records that the block `jit_llvm_mem` points to has been given
back to the allocator, so that the pointer dangles (line 127 followed by a failing
`posix_memalign`). -/
structure JitState where
  fn_table : List (String × Ptr)
  jit_llvm_handle : Ptr
  jit_llvm_disasm : Ptr
  jit_llvm_engine : Ptr
  jit_llvm_context : Ptr
  jit_llvm_target_cpu : Option (List Char)
  jit_llvm_target_features : Option (List Char)
  jit_llvm_vector_width : Int
  jit_llvm_kernel_id : Nat
  jit_llvm_init_attempted : Bool
  jit_llvm_init_success : Bool
  jit_llvm_mem : Ptr
  jit_llvm_mem_size : Nat
  jit_llvm_mem_offset : Nat
  jit_llvm_mem_freed : Bool
  deriving DecidableEq, Repr

/-- All function pointers null. -/
def fn_table_null : List (String × Ptr) :=
  required_symbols.map (fun n => (n, 0))

/-- The state at program start: every static initialiser of `llvm_api.cpp`. -/
def JitState.initial : JitState :=
  { fn_table := fn_table_null
    jit_llvm_handle := 0
    jit_llvm_disasm := 0
    jit_llvm_engine := 0
    jit_llvm_context := 0
    jit_llvm_target_cpu := none
    jit_llvm_target_features := none
    jit_llvm_vector_width := 0
    jit_llvm_kernel_id := 0
    jit_llvm_init_attempted := false
    jit_llvm_init_success := false
    jit_llvm_mem := 0
    jit_llvm_mem_size := 0
    jit_llvm_mem_offset := 0
    jit_llvm_mem_freed := false }

/-- Assignment `name = p` to one of the function pointers. -/
def set_fn (tbl : List (String × Ptr)) (name : String) (p : Ptr) : List (String × Ptr) :=
  tbl.map (fun e => if e.1 = name then (e.1, p) else e)

/-- Value of the function pointer `name`. -/
def get_fn (tbl : List (String × Ptr)) (name : String) : Ptr :=
  match tbl.find? (fun e => e.1 = name) with
  | some e => e.2
  | none => 0

/-! ## CodeArena: the memory-manager callbacks -/

/-- Byte-addressed memory. -/
abbrev Heap := Ptr → Nat

/-- Function `memset(dst, 0, n)`. -/
def memset_zero (h : Heap) (dst : Ptr) (n : Nat) : Heap :=
  fun a => if dst ≤ a ∧ a < dst + n then 0 else h a

/-- Modelled from the spec: the `jit_trace` macro of `log.h`, which is not among the sources;
taken as a log call at level `Trace`. -/
def jit_trace (fmt : String) (args : List Arg) : List Event :=
  jit_log LogLevel.Trace fmt args

/-- What a memory-manager callback leaves behind: the state, the heap, the returned pointer
(`0` for `nullptr`) and the trace. -/
structure AllocResult where
  state : JitState
  heap : Heap
  ptr : Ptr
  events : List Event

/-- The aligned offset computed at line 95 for cursor `offset` and effective alignment
`align` (`size_t` arithmetic). -/
def offset_align (offset align : Nat) : Nat :=
  ((offset + (align - 1)) % SIZE_MOD) / align * align

/-- Function `jit_llvm_mem_allocate(opaque, size, align, id, name)`, lines 86-107. -/
def jit_llvm_mem_allocate (s : JitState) (h : Heap) (size align : Nat) (name : List Char) :
    AllocResult :=
  let align := if align = 0 then 16 else align
  let ev := jit_trace "jit_llvm_mem_allocate(section=%s, size=%llu, align=%u);"
    [Arg.str name, Arg.int size, Arg.int align]
  let oa := offset_align s.jit_llvm_mem_offset align
  -- Zero-fill padding region for alignment
  let h1 := memset_zero h (s.jit_llvm_mem + s.jit_llvm_mem_offset)
    ((oa + SIZE_MOD - s.jit_llvm_mem_offset) % SIZE_MOD)
  let s1 := { s with jit_llvm_mem_offset := (oa + size) % SIZE_MOD }
  if s1.jit_llvm_mem_offset > s1.jit_llvm_mem_size then
    { state := s1, heap := h1, ptr := 0, events := ev }
  else
    { state := s1, heap := h1, ptr := s.jit_llvm_mem + oa, events := ev }

/-- Function `jit_llvm_mem_allocate_data(opaque, size, align, id, name, read_only)`, lines 109-114. -/
def jit_llvm_mem_allocate_data (s : JitState) (h : Heap) (size align : Nat) (name : List Char)
    (_read_only : Int) : AllocResult :=
  jit_llvm_mem_allocate s h size align name

/-- Function `jit_llvm_mem_finalize`: always reports success (`0`). -/
def jit_llvm_mem_finalize : Int := 0

/-- The arena invariant of the data model: `0 ≤ cursor ≤ capacity`. -/
def arena_inv (s : JitState) : Prop :=
  s.jit_llvm_mem_offset ≤ s.jit_llvm_mem_size

instance (s : JitState) : Decidable (arena_inv s) := by
  unfold arena_inv; infer_instance

/-! ## ToolchainBinding: `jit_llvm_init` and `jit_llvm_shutdown` -/

/-- The platform branch selected by the preprocessor at lines 234-251. -/
inductive Platform
  | linux
  | apple
  | other
  deriving DecidableEq, Repr

/-- Everything `jit_llvm_init` obtains from outside the program: the dynamic loader and the
results of the LLVM entry points it calls. -/
structure InitEnv where
  platform : Platform
  /-- Result of `dlopen(path, RTLD_LAZY)`. -/
  dlopen : String → Ptr
  /-- Paths matched by `glob("/usr/local/Cellar/llvm/*/lib/libLLVM.dylib", ...)`, `none` when
  `glob` does not return `0`. -/
  glob : Option (List String)
  /-- Result of `dlsym(handle, symbol)`. -/
  dlsym : Ptr → String → Ptr
  LLVMGetGlobalContext : Ptr
  LLVMGetDefaultTargetTriple : List Char
  LLVMCreateDisasm : Ptr
  LLVMSetDisasmOptions : Int
  LLVMCreateSimpleMCJITMemoryManager : Ptr
  LLVMModuleCreateWithName : Ptr
  /-- Return value of `LLVMCreateMCJITCompilerForModule`; non-zero reports failure. -/
  LLVMCreateMCJITCompilerForModule : Int
  /-- What the call stores into `jit_llvm_engine` through its first argument, `none` when it
  leaves the variable alone. -/
  mcjit_engine : Option Ptr
  /-- What the call stores into `error`. -/
  mcjit_error : List Char
  LLVMGetHostCPUName : List Char
  LLVMGetHostCPUFeatures : List Char

/-- The loop over the `glob` matches at lines 242-246: stops at the first path that opens. -/
def dlopen_glob (dlopen : String → Ptr) : List String → Ptr → Ptr × List Event
  | [], h => (h, [])
  | p :: rest, _ =>
    if dlopen p ≠ 0 then (dlopen p, [Event.dlopen p])
    else
      let r := dlopen_glob dlopen rest (dlopen p)
      (r.1, Event.dlopen p :: r.2)

/-- Lines 234-251: the new value of `jit_llvm_handle` and the loader calls made. -/
def open_library (env : InitEnv) (handle : Ptr) : Ptr × List Event :=
  match env.platform with
  | Platform.linux => (env.dlopen "libLLVM.so", [Event.dlopen "libLLVM.so"])
  | Platform.apple =>
    let h := env.dlopen "libLLVM.dylib"
    if h = 0 then
      match env.glob with
      | some paths =>
        let r := dlopen_glob env.dlopen paths h
        (r.1, Event.dlopen "libLLVM.dylib" :: r.2)
      | none => (h, [Event.dlopen "libLLVM.dylib"])
    else (h, [Event.dlopen "libLLVM.dylib"])
  | Platform.other => (handle, [])

/-- The `do { LOAD(...); ... } while (false)` block, lines 259-287: each pointer is assigned
the result of `dlsym`, and the first null result leaves the loop with `symbol` still set. -/
def load_symbols (handle : Ptr) (dlsym : Ptr → String → Ptr) :
    List String → List (String × Ptr) → List (String × Ptr) × Option String × List Event
  | [], tbl => (tbl, none, [])
  | name :: rest, tbl =>
    if dlsym handle name = 0 then
      (set_fn tbl name 0, some name, [Event.dlsym handle name])
    else
      let r := load_symbols handle dlsym rest (set_fn tbl name (dlsym handle name))
      (r.1, r.2.1, Event.dlsym handle name :: r.2.2)

/-- The implicit conversion of an `int` to `bool` at a `return` of a function returning
`bool`: every non-zero value is `true`. -/
def int_to_bool (i : Int) : Bool := i != 0

/-- The constants `LLVMDisassembler_Option_PrintImmHex | LLVMDisassembler_Option_AsmPrinterVariant`. -/
def disasm_options : Int := 6

/-- An optional C string as an argument. -/
def Arg.ofCStr : Option (List Char) → Arg
  | some s => Arg.str s
  | none => Arg.null

/-- Function `jit_llvm_shutdown()`, lines 377-418: the state its assignments leave, and the
trace. Line 396 frees `jit_llvm_mem`; in a state whose arena block was already given back
(`jit_llvm_mem_freed`) that is a second `free` of the block. -/
def jit_llvm_shutdown (s : JitState) : JitState × List Event :=
  if !s.jit_llvm_init_success then (s, [])
  else
    ({ fn_table := required_symbols.foldl (fun t n => set_fn t n 0) s.fn_table
       jit_llvm_handle := 0
       jit_llvm_disasm := 0
       jit_llvm_engine := 0
       jit_llvm_context := 0
       jit_llvm_target_cpu := none
       jit_llvm_target_features := none
       jit_llvm_vector_width := 0
       jit_llvm_kernel_id := 0
       jit_llvm_init_attempted := false
       jit_llvm_init_success := false
       jit_llvm_mem := 0
       jit_llvm_mem_size := 0
       jit_llvm_mem_offset := 0
       jit_llvm_mem_freed := false },
     jit_log LogLevel.Info "jit_llvm_shutdown()" [] ++
     [Event.llvm "LLVMDisasmDispose" [Arg.ptr s.jit_llvm_disasm],
      Event.llvm "LLVMDisposeExecutionEngine" [Arg.ptr s.jit_llvm_engine],
      Event.llvm "LLVMDisposeMessage" [Arg.ofCStr s.jit_llvm_target_cpu],
      Event.llvm "LLVMDisposeMessage" [Arg.ofCStr s.jit_llvm_target_features],
      Event.dlclose s.jit_llvm_handle,
      Event.free s.jit_llvm_mem])

/-- The vector width chosen at lines 352-359 for a feature string. -/
def detect_vector_width (features : List Char) : Int :=
  let w : Int := 1
  let w := if (strstr features "+sse4.2".toList).isSome then 4 else w
  let w := if (strstr features "+avx".toList).isSome then 8 else w
  let w := if (strstr features "+avx512f".toList).isSome then 16 else w
  w

/-- What a call of `jit_llvm_init` leaves behind: the state, the returned `bool`, the trace. -/
structure InitResult where
  state : JitState
  ret : Bool
  events : List Event
  deriving DecidableEq, Repr

/-- The registration calls at lines 296-301. -/
def llvm_register_target : List Event :=
  [Event.llvm "LLVMLinkInMCJIT" [], Event.llvm "LLVMInitializeX86TargetInfo" [],
   Event.llvm "LLVMInitializeX86Target" [], Event.llvm "LLVMInitializeX86TargetMC" [],
   Event.llvm "LLVMInitializeX86AsmPrinter" [], Event.llvm "LLVMInitializeX86Disassembler" []]

/-- Lines 350-374 of `jit_llvm_init`: target description, vector width, and the shutdown
when no vector ISA is found. `ev` is the trace so far, `triple` the target triple. -/
def jit_llvm_init_detect (env : InitEnv) (s : JitState) (triple : List Char)
    (ev : List Event) : InitResult :=
  let s := { s with jit_llvm_target_cpu := some env.LLVMGetHostCPUName
                    jit_llvm_target_features := some env.LLVMGetHostCPUFeatures
                    jit_llvm_vector_width := detect_vector_width env.LLVMGetHostCPUFeatures }
  let ev := ev ++ [Event.llvm "LLVMGetHostCPUName" [], Event.llvm "LLVMGetHostCPUFeatures" []] ++
    jit_log LogLevel.Info "jit_llvm_init(): found %s, cpu=%s, vector width=%i."
      [Arg.str triple, Arg.str env.LLVMGetHostCPUName, Arg.int s.jit_llvm_vector_width] ++
    [Event.llvm "LLVMDisposeMessage" [Arg.str triple]]
  let s := { s with jit_llvm_init_success := decide (s.jit_llvm_vector_width > 1) }
  if !s.jit_llvm_init_success then
    let sd := jit_llvm_shutdown s
    { state := sd.1
      ret := sd.1.jit_llvm_init_success
      events := ev ++ jit_log LogLevel.Warn
        "jit_llvm_init(): no suitable vector ISA found, shutting down LLVM backend.." [] ++ sd.2 }
  else
    { state := s, ret := s.jit_llvm_init_success, events := ev }

/-- Lines 303-348 of `jit_llvm_init`: the steps after every entry point is resolved, up to
the creation of the MCJIT execution engine. -/
def jit_llvm_init_secondary (env : InitEnv) (s : JitState) (ev : List Event) : InitResult :=
  let s := { s with jit_llvm_context := env.LLVMGetGlobalContext }
  let ev := ev ++ [Event.llvm "LLVMGetGlobalContext" []]
  if s.jit_llvm_context = 0 then
    { state := s, ret := false
      events := ev ++ jit_log LogLevel.Warn "jit_llvm_init(): could not obtain context!" [] }
  else
    let triple := env.LLVMGetDefaultTargetTriple
    let s := { s with jit_llvm_disasm := env.LLVMCreateDisasm }
    let ev := ev ++ [Event.llvm "LLVMGetDefaultTargetTriple" [],
      Event.llvm "LLVMCreateDisasm" [Arg.str triple, Arg.null, Arg.int 0, Arg.null, Arg.null]]
    if s.jit_llvm_disasm = 0 then
      { state := s, ret := false
        events := ev ++
          jit_log LogLevel.Warn "jit_llvm_init(): could not create a disassembler!" [] ++
          [Event.llvm "LLVMDisposeMessage" [Arg.str triple]] }
    else
      let ev := ev ++ [Event.llvm "LLVMSetDisasmOptions"
        [Arg.ptr s.jit_llvm_disasm, Arg.int disasm_options]]
      if env.LLVMSetDisasmOptions = 0 then
        { state := s, ret := false
          events := ev ++
            jit_log LogLevel.Warn "jit_llvm_init(): could not configure disassembler!" [] ++
            [Event.llvm "LLVMDisasmDispose" [Arg.ptr s.jit_llvm_disasm],
             Event.llvm "LLVMDisposeMessage" [Arg.str triple]] }
      else
        let enoki_module := env.LLVMModuleCreateWithName
        let ev := ev ++ [Event.llvm "LLVMCreateSimpleMCJITMemoryManager" [],
          Event.llvm "LLVMModuleCreateWithName" [Arg.str "enoki".toList],
          Event.llvm "LLVMCreateMCJITCompilerForModule" [Arg.ptr enoki_module]]
        let s := match env.mcjit_engine with
          | some e => { s with jit_llvm_engine := e }
          | none => s
        if env.LLVMCreateMCJITCompilerForModule ≠ 0 then
          { state := s, ret := int_to_bool (-1)
            events := ev ++
              jit_log LogLevel.Warn "jit_llvm_init(): could not create MCJIT: %s"
                [Arg.str env.mcjit_error] ++
              [Event.llvm "LLVMDisposeModule" [Arg.ptr enoki_module],
               Event.llvm "LLVMDisasmDispose" [Arg.ptr s.jit_llvm_disasm],
               Event.llvm "LLVMDisposeMessage" [Arg.str triple]] }
        else
          jit_llvm_init_detect env s triple ev

/-- Function `jit_llvm_init()`, lines 229-375. -/
def jit_llvm_init (env : InitEnv) (s : JitState) : InitResult :=
  if s.jit_llvm_init_attempted then
    { state := s, ret := s.jit_llvm_init_success, events := [] }
  else
    let s := { s with jit_llvm_init_attempted := true }
    let lib := open_library env s.jit_llvm_handle
    let s := { s with jit_llvm_handle := lib.1 }
    if s.jit_llvm_handle = 0 then
      { state := s, ret := false
        events := lib.2 ++ jit_log LogLevel.Warn
          "jit_llvm_init(): libLLVM.so/.dylib not found -- disabling LLVM backend!" [] }
    else
      let ld := load_symbols s.jit_llvm_handle env.dlsym required_symbols s.fn_table
      let s := { s with fn_table := ld.1 }
      match ld.2.1 with
      | some symbol =>
        { state := s, ret := false
          events := lib.2 ++ ld.2.2 ++ jit_log LogLevel.Warn
            "jit_llvm_init(): could not find symbol \"%s\" -- disabling LLVM backend!"
            [Arg.str symbol.toList] }
      | none => jit_llvm_init_secondary env s (lib.2 ++ ld.2.2 ++ llvm_register_target)

/-! ## KernelCompiler: `jit_llvm_compile` -/

/-- How a call ends. `raised` is `jit_raise` (a `std::runtime_error` thrown to the caller),
`failed` is `jit_fail` (the message is printed after `Critical failure in JIT compiler: ` and
the process exits with `EXIT_FAILURE`), `exited` is a direct `exit(status)`, `undefined`
is an access through a null or dangling pointer or outside the accessed object, and `aborted`
is the end of the process inside a library the program called (the fatal-error handler of
LLVM). -/
inductive Outcome (α : Type)
  | returned (a : α)
  | raised (fmt : String) (args : List Arg)
  | failed (fmt : String) (args : List Arg)
  | exited (status : Nat)
  | undefined (what : String)
  | aborted (what : String)
  deriving DecidableEq, Repr

/-- The fields `llvm.func` and `llvm.size` of `Kernel` that `jit_llvm_compile` fills in. -/
structure Kernel where
  func : Ptr
  size : Nat
  deriving DecidableEq, Repr

/-- One call of the execution engine into the memory manager: `data = none` is
`jit_llvm_mem_allocate`, `data = some read_only` is `jit_llvm_mem_allocate_data`. -/
structure AllocRequest where
  size : Nat
  align : Nat
  name : List Char
  data : Option Int
  deriving DecidableEq, Repr

/-- The value `MAP_FAILED`, `(void *) -1`. -/
def MAP_FAILED : Ptr := SIZE_MOD - 1

/-- Everything `jit_llvm_compile` obtains from outside the program. -/
structure CompileEnv where
  /-- Return value of `posix_memalign`; non-zero reports failure. -/
  posix_memalign : Int
  /-- The pointer it stores on success. -/
  posix_memalign_ptr : Ptr
  LLVMCreateMemoryBufferWithMemoryRange : Ptr
  /-- The module stored by `LLVMParseIRInContext`. -/
  parse_module : Ptr
  /-- The diagnostic stored by `LLVMParseIRInContext`, `none` when `error` stays null. -/
  parse_error : Option (List Char)
  /-- The memory-manager callbacks made while the engine generates the code. -/
  codegen : List AllocRequest
  /-- The bytes the code generator stores into the sections it obtained. -/
  emit : Heap → Heap
  LLVMGetFunctionAddress : Ptr
  /-- Whether `max(state.log_level_stderr, state.log_level_callback) >= LogLevel::Trace`. -/
  trace : Bool
  /-- Result of `LLVMDisasmInstruction` at an arena offset: instruction size and text. -/
  LLVMDisasmInstruction : Nat → Nat × List Char
  mmap : Ptr
  /-- The text `strerror(errno)` after a failed `mmap`. -/
  mmap_strerror : List Char
  mprotect : Int
  /-- The text `strerror(errno)` after a failed `mprotect`. -/
  mprotect_strerror : List Char
  /-- The module handed back by `LLVMRemoveModule`. -/
  remove_module : Ptr
  /-- The diagnostic stored by `LLVMRemoveModule`, `none` when `error` stays null. -/
  remove_error : Option (List Char)

/-- One hexadecimal digit as printed by the `x` conversion. -/
def hex_digit (d : Nat) : Char :=
  if d < 10 then Char.ofNat (48 + d) else Char.ofNat (87 + d)

/-- The conversion `%08x` of a `uint32_t`: its eight hexadecimal digits, most significant
first (a 32-bit value never needs more than the minimum width). -/
def fmt_08x (v : Nat) : List Char :=
  [7, 6, 5, 4, 3, 2, 1, 0].map (fun i => hex_digit (v / 16 ^ i % 16))

/-- The text `snprintf(kernel_name_new, 15, "enoki_%08x", (uint32_t) id)` stores before the
terminating NUL: at most 14 characters. -/
def kernel_name_new (id : Nat) : List Char :=
  ("enoki_".toList ++ fmt_08x (id % U32_MOD)).take 14

/-- Function `memcpy(buf + k, src, src.length)` into the caller's buffer. -/
def memcpy_into (buf : List Char) (k : Nat) (src : List Char) : List Char :=
  buf.take k ++ src ++ buf.drop (k + src.length)

/-- Function `memcpy(dst, src, n)` between heap regions. -/
def memcpy_heap (h : Heap) (dst src : Ptr) (n : Nat) : Heap :=
  fun a => if dst ≤ a ∧ a < dst + n then h (src + (a - dst)) else h a

/-- The memory-manager callbacks of one code generation, in order. The engine stops at the
first callback that returns null: it reports `Unable to allocate section memory!` through its
fatal-error handler, which ends the process. The last component tells whether every callback
returned a pointer other than null. -/
def run_codegen : List AllocRequest → JitState → Heap → JitState × Heap × List Event × Bool
  | [], s, h => (s, h, [], true)
  | r :: rest, s, h =>
    let a := match r.data with
      | none => jit_llvm_mem_allocate s h r.size r.align r.name
      | some ro => jit_llvm_mem_allocate_data s h r.size r.align r.name ro
    if a.ptr = 0 then (a.state, a.heap, a.events, false)
    else
      let t := run_codegen rest a.state a.heap
      (t.1, t.2.1, a.events ++ t.2.2.1, t.2.2.2)

/-- Whether a code generation writes past the end of the arena. A callback zero-fills the
padding at line 98 before the capacity is checked at line 103, so the padding can end past
the capacity; and when the sum of line 101 wraps around `2 ^ 64` the callback hands out a
block that ends past the capacity, which the engine then fills with the section. The
callbacks after the first one that returns null do not run. -/
def run_codegen_overrun : List AllocRequest → JitState → Heap → Bool
  | [], _, _ => false
  | r :: rest, s, h =>
    let a := match r.data with
      | none => jit_llvm_mem_allocate s h r.size r.align r.name
      | some ro => jit_llvm_mem_allocate_data s h r.size r.align r.name ro
    let oa := offset_align s.jit_llvm_mem_offset (if r.align = 0 then 16 else r.align)
    let padding := (oa + SIZE_MOD - s.jit_llvm_mem_offset) % SIZE_MOD
    if 0 < padding ∧ s.jit_llvm_mem_size < s.jit_llvm_mem_offset + padding then true
    else if a.ptr = 0 then false
    else if s.jit_llvm_mem_size < oa + r.size then true
    else run_codegen_overrun rest a.state a.heap

/-- The assembly dump, lines 171-187. Every round that continues advances `cur_offset` by a
non-zero instruction size, so `fuel = jit_llvm_mem_offset` rounds reach the exit
`cur_offset >= jit_llvm_mem_offset`. -/
def disasm_dump (disasm : Nat → Nat × List Char) (mem_offset : Nat) : Nat → Nat → List Event
  | 0, _ => []
  | fuel + 1, cur_offset =>
    if cur_offset ≥ mem_offset then []
    else
      let r := disasm cur_offset
      if r.1 = 0 then []
      else
        let start := r.2.dropWhile (fun c => c = ' ' ∨ c = '\t')
        jit_trace "jit_llvm_compile(): 0x%08llx   %s" [Arg.int cur_offset, Arg.str start] ++
          (if (cstr start).take 3 = "ret".toList then []
           else disasm_dump disasm mem_offset fuel (cur_offset + r.1))

/-- What a call of `jit_llvm_compile` leaves behind. -/
structure CompileResult where
  outcome : Outcome Kernel
  state : JitState
  buffer : List Char
  heap : Heap
  events : List Event

/-- Lines 190-213 of `jit_llvm_compile`: the executable mapping, the removal of the module
and the return. `s1` is the state after the code generation, `module` the parsed module. A
copy of more bytes than the arena holds and a call through a null function pointer are
undefined behaviour. -/
def jit_llvm_compile_map (env : CompileEnv) (s1 : JitState) (buf1 : List Char) (k : Nat)
    (old : List Char) (module : Ptr) (h : Heap) (ev : List Event) : CompileResult :=
  if env.mmap = MAP_FAILED then
    { outcome := Outcome.failed
        "jit_llvm_compile(): could not mmap() memory for function: %s"
        [Arg.str env.mmap_strerror]
      state := s1, buffer := buf1, heap := h, events := ev }
  else if s1.jit_llvm_mem_offset > s1.jit_llvm_mem_size then
    { outcome := Outcome.undefined "memcpy(ptr_result, jit_llvm_mem, jit_llvm_mem_offset)"
      state := s1, buffer := buf1, heap := h, events := ev }
  else if env.mprotect = -1 then
    { outcome := Outcome.failed "jit_llvm_compile(): mprotect() failed: %s"
        [Arg.str env.mprotect_strerror]
      state := s1, buffer := buf1
      heap := memcpy_heap h env.mmap s1.jit_llvm_mem s1.jit_llvm_mem_offset
      events := ev }
  else if get_fn s1.fn_table "LLVMRemoveModule" = 0 then
    { outcome := Outcome.undefined "LLVMRemoveModule(jit_llvm_engine, ...)"
      state := s1, buffer := buf1
      heap := memcpy_heap h env.mmap s1.jit_llvm_mem s1.jit_llvm_mem_offset
      events := ev }
  else if env.remove_error ≠ none then
    { outcome := Outcome.failed "jit_llvm_compile(): could remove module: %s.\n"
        [Arg.ofCStr env.remove_error]
      state := s1, buffer := buf1
      heap := memcpy_heap h env.mmap s1.jit_llvm_mem s1.jit_llvm_mem_offset
      events := ev ++
        [Event.llvm "LLVMRemoveModule" [Arg.ptr s1.jit_llvm_engine, Arg.ptr module]] }
  else if get_fn s1.fn_table "LLVMDisposeModule" = 0 then
    { outcome := Outcome.undefined "LLVMDisposeModule(module)"
      state := s1, buffer := buf1
      heap := memcpy_heap h env.mmap s1.jit_llvm_mem s1.jit_llvm_mem_offset
      events := ev ++
        [Event.llvm "LLVMRemoveModule" [Arg.ptr s1.jit_llvm_engine, Arg.ptr module]] }
  else
    -- Change the kernel name back
    { outcome := Outcome.returned { func := env.mmap, size := s1.jit_llvm_mem_offset }
      state := s1
      buffer := memcpy_into buf1 k (old.take 8)
      heap := memcpy_heap h env.mmap s1.jit_llvm_mem s1.jit_llvm_mem_offset
      events := ev ++
        [Event.llvm "LLVMRemoveModule" [Arg.ptr s1.jit_llvm_engine, Arg.ptr module],
         Event.llvm "LLVMDisposeModule" [Arg.ptr env.remove_module]] }

/-- Lines 159-188 of `jit_llvm_compile`: the module is added to the engine, the entry point
is resolved, which makes the engine generate the code through the memory-manager callbacks,
and the code is dumped when tracing is on. A callback that returns null ends the process
inside the engine. Code generation into an arena that was freed, a write past the end of the
arena, and a call through a null function pointer or with a null engine or disassembler, are
undefined behaviour. -/
def jit_llvm_compile_codegen (env : CompileEnv) (s : JitState) (buf1 : List Char) (k : Nat)
    (old name : List Char) (h : Heap) (ev : List Event) : CompileResult :=
  if get_fn s.fn_table "LLVMAddModule" = 0 ∨
      get_fn s.fn_table "LLVMGetFunctionAddress" = 0 ∨ s.jit_llvm_engine = 0 then
    { outcome := Outcome.undefined "LLVMAddModule(jit_llvm_engine, module)"
      state := s, buffer := buf1, heap := h, events := ev }
  else if s.jit_llvm_mem_freed = true ∧ env.codegen ≠ [] then
    { outcome := Outcome.undefined "code generation into the freed block jit_llvm_mem"
      state := s, buffer := buf1, heap := h, events := ev }
  else if run_codegen_overrun env.codegen s h = true then
    { outcome := Outcome.undefined "write past the end of the block jit_llvm_mem"
      state := (run_codegen env.codegen s h).1
      buffer := buf1
      heap := (run_codegen env.codegen s h).2.1
      events := ev ++
        [Event.llvm "LLVMAddModule" [Arg.ptr s.jit_llvm_engine, Arg.ptr env.parse_module],
         Event.llvm "LLVMGetFunctionAddress" [Arg.ptr s.jit_llvm_engine, Arg.str name]] ++
        (run_codegen env.codegen s h).2.2.1 }
  else if (run_codegen env.codegen s h).2.2.2 = false then
    { outcome := Outcome.aborted "LLVM ERROR: Unable to allocate section memory!"
      state := (run_codegen env.codegen s h).1
      buffer := buf1
      heap := (run_codegen env.codegen s h).2.1
      events := ev ++
        [Event.llvm "LLVMAddModule" [Arg.ptr s.jit_llvm_engine, Arg.ptr env.parse_module],
         Event.llvm "LLVMGetFunctionAddress" [Arg.ptr s.jit_llvm_engine, Arg.str name]] ++
        (run_codegen env.codegen s h).2.2.1 }
  else if env.LLVMGetFunctionAddress ≠ (run_codegen env.codegen s h).1.jit_llvm_mem then
    { outcome := Outcome.failed
        "jit_llvm_compile(): internal error: address mismatch: %p vs %p.\n"
        [Arg.ptr env.LLVMGetFunctionAddress,
         Arg.ptr (run_codegen env.codegen s h).1.jit_llvm_mem]
      state := (run_codegen env.codegen s h).1
      buffer := buf1
      heap := env.emit (run_codegen env.codegen s h).2.1
      events := ev ++
        [Event.llvm "LLVMAddModule" [Arg.ptr s.jit_llvm_engine, Arg.ptr env.parse_module],
         Event.llvm "LLVMGetFunctionAddress" [Arg.ptr s.jit_llvm_engine, Arg.str name]] ++
        (run_codegen env.codegen s h).2.2.1 }
  else if env.trace = true ∧ 0 < (run_codegen env.codegen s h).1.jit_llvm_mem_offset ∧
      (get_fn (run_codegen env.codegen s h).1.fn_table "LLVMDisasmInstruction" = 0 ∨
        (run_codegen env.codegen s h).1.jit_llvm_disasm = 0) then
    { outcome := Outcome.undefined "LLVMDisasmInstruction(jit_llvm_disasm, ...)"
      state := (run_codegen env.codegen s h).1
      buffer := buf1
      heap := env.emit (run_codegen env.codegen s h).2.1
      events := ev ++
        [Event.llvm "LLVMAddModule" [Arg.ptr s.jit_llvm_engine, Arg.ptr env.parse_module],
         Event.llvm "LLVMGetFunctionAddress" [Arg.ptr s.jit_llvm_engine, Arg.str name]] ++
        (run_codegen env.codegen s h).2.2.1 }
  else
    jit_llvm_compile_map env (run_codegen env.codegen s h).1 buf1 k old env.parse_module
      (env.emit (run_codegen env.codegen s h).2.1)
      (ev ++
        [Event.llvm "LLVMAddModule" [Arg.ptr s.jit_llvm_engine, Arg.ptr env.parse_module],
         Event.llvm "LLVMGetFunctionAddress" [Arg.ptr s.jit_llvm_engine, Arg.str name]] ++
        (run_codegen env.codegen s h).2.2.1 ++
        (if env.trace then
          disasm_dump env.LLVMDisasmInstruction
            (run_codegen env.codegen s h).1.jit_llvm_mem_offset
            (run_codegen env.codegen s h).1.jit_llvm_mem_offset 0
         else []))

/-- Lines 141-213 of `jit_llvm_compile`: from the creation of the memory buffer to the
return. `buf1` is the caller's buffer with the new kernel name, `k` the offset of the name,
`old` the 14 characters saved in `kernel_name_old`. Every LLVM entry point is called through
its pointer in `fn_table`; a call through a null pointer and a call that hands LLVM a null
context are undefined behaviour. -/
def jit_llvm_compile_body (env : CompileEnv) (s : JitState) (buf1 : List Char) (k : Nat)
    (old name : List Char) (buffer_size : Nat) (h : Heap) (ev : List Event) : CompileResult :=
  if get_fn s.fn_table "LLVMCreateMemoryBufferWithMemoryRange" = 0 then
    { outcome := Outcome.undefined "LLVMCreateMemoryBufferWithMemoryRange(...)"
      state := s, buffer := buf1, heap := h, events := ev }
  else if env.LLVMCreateMemoryBufferWithMemoryRange = 0 then
    { outcome := Outcome.failed "jit_run_compile(): could not create memory buffer!" []
      state := s, buffer := buf1, heap := h
      events := ev ++ [Event.llvm "LLVMCreateMemoryBufferWithMemoryRange"
        [Arg.str buf1, Arg.int buffer_size, Arg.str name, Arg.int 0]] }
  else if get_fn s.fn_table "LLVMParseIRInContext" = 0 ∨ s.jit_llvm_context = 0 then
    { outcome := Outcome.undefined "LLVMParseIRInContext(jit_llvm_context, ...)"
      state := s, buffer := buf1, heap := h
      events := ev ++ [Event.llvm "LLVMCreateMemoryBufferWithMemoryRange"
        [Arg.str buf1, Arg.int buffer_size, Arg.str name, Arg.int 0]] }
  else if env.parse_error ≠ none then
    { outcome := Outcome.failed "jit_llvm_compile(): could not parse IR: %s.\n"
        [Arg.ofCStr env.parse_error]
      state := s, buffer := buf1, heap := h
      events := ev ++ [Event.llvm "LLVMCreateMemoryBufferWithMemoryRange"
          [Arg.str buf1, Arg.int buffer_size, Arg.str name, Arg.int 0],
        Event.llvm "LLVMParseIRInContext"
          [Arg.ptr s.jit_llvm_context, Arg.ptr env.LLVMCreateMemoryBufferWithMemoryRange]] }
  else
    jit_llvm_compile_codegen env s buf1 k old name h
      (ev ++ [Event.llvm "LLVMCreateMemoryBufferWithMemoryRange"
          [Arg.str buf1, Arg.int buffer_size, Arg.str name, Arg.int 0],
        Event.llvm "LLVMParseIRInContext"
          [Arg.ptr s.jit_llvm_context, Arg.ptr env.LLVMCreateMemoryBufferWithMemoryRange]])

/-- Lines 125-132 of `jit_llvm_compile`: grow the arena when it is not larger than the IR
text, then reset the cursor. Line 127 frees the old block before `posix_memalign` is tried;
when that fails, `jit_llvm_mem` keeps pointing to the freed block, and a later `free` of it
is undefined behaviour. -/
def jit_llvm_compile_reset (env : CompileEnv) (s : JitState) (buffer_size : Nat) :
    Outcome JitState × List Event :=
  if s.jit_llvm_mem_size ≤ buffer_size then
    -- Central assumption: LLVM text IR is much larger than the resulting generated code.
    if s.jit_llvm_mem_freed then
      (Outcome.undefined "free(jit_llvm_mem)", [])
    else if env.posix_memalign ≠ 0 then
      (Outcome.raised "jit_llvm_compile(): could not allocate %zu bytes of memory!"
        [Arg.int buffer_size],
       [Event.free s.jit_llvm_mem])
    else
      (Outcome.returned { s with jit_llvm_mem := env.posix_memalign_ptr
                                 jit_llvm_mem_size := buffer_size
                                 jit_llvm_mem_offset := 0 },
       [Event.free s.jit_llvm_mem])
  else
    (Outcome.returned { s with jit_llvm_mem_offset := 0 }, [])

/-- Function `jit_llvm_compile(buffer, buffer_size)`, lines 124-213. `buffer` is the memory
of the caller starting at the pointer `buffer`. After a `jit_raise` the state is the one the
exception leaves: the old arena block is freed while `jit_llvm_mem` still points to it. -/
def jit_llvm_compile (env : CompileEnv) (s : JitState) (buffer : List Char) (buffer_size : Nat)
    (h : Heap) : CompileResult :=
  match jit_llvm_compile_reset env s buffer_size with
  | (Outcome.returned s1, ev) =>
    -- Temporarily change the kernel name
    let name := kernel_name_new s1.jit_llvm_kernel_id
    let s2 := { s1 with jit_llvm_kernel_id := (s1.jit_llvm_kernel_id + 1) % U32_MOD }
    match strstr buffer "enoki_".toList with
    | none =>
      { outcome := Outcome.undefined "memcpy(kernel_name_old, nullptr, 14)"
        state := s2, buffer := buffer, heap := h, events := ev }
    | some k =>
      if k + 14 ≤ buffer.length then
        let old := (buffer.drop k).take 14
        jit_llvm_compile_body env s2 (memcpy_into buffer k name) k old name buffer_size h ev
      else
        { outcome := Outcome.undefined "memcpy(kernel_name_old, kernel_name_offset, 14)"
          state := s2, buffer := buffer, heap := h, events := ev }
  | (Outcome.raised fmt args, ev) =>
    { outcome := Outcome.raised fmt args
      state := { s with jit_llvm_mem_freed := decide (s.jit_llvm_mem ≠ 0) }
      buffer := buffer, heap := h, events := ev }
  | (Outcome.failed fmt args, ev) =>
    { outcome := Outcome.failed fmt args, state := s, buffer := buffer, heap := h, events := ev }
  | (Outcome.exited st, ev) =>
    { outcome := Outcome.exited st, state := s, buffer := buffer, heap := h, events := ev }
  | (Outcome.undefined w, ev) =>
    { outcome := Outcome.undefined w, state := s, buffer := buffer, heap := h, events := ev }
  | (Outcome.aborted w, ev) =>
    { outcome := Outcome.aborted w, state := s, buffer := buffer, heap := h, events := ev }

/-- Function `jit_llvm_free(kernel)`, lines 215-218; `munmap` is the result of the system
call. -/
def jit_llvm_free (munmap : Int) (_kernel : Kernel) : Outcome Unit :=
  if munmap = -1 then Outcome.failed "jit_llvm_compile(): munmap() failed!" []
  else Outcome.returned ()

/-! ## Diagnostics: translation and checking of CUDA driver error codes (`log.cpp`) -/

/-- One row of `__cuda_error_list`; `value = none` is a null `const char *`. -/
structure CUDAErrorList where
  id : Int
  value : Option (List Char)
  deriving DecidableEq, Repr

/-- The enumerators of `CUresult` named in the rows of `__cuda_error_list`, in the order of
the rows (lines 40-161). -/
def cuda_error_names : List String :=
  ["CUDA_SUCCESS", "CUDA_ERROR_INVALID_VALUE", "CUDA_ERROR_OUT_OF_MEMORY",
   "CUDA_ERROR_NOT_INITIALIZED", "CUDA_ERROR_DEINITIALIZED", "CUDA_ERROR_PROFILER_DISABLED",
   "CUDA_ERROR_PROFILER_NOT_INITIALIZED", "CUDA_ERROR_PROFILER_ALREADY_STARTED",
   "CUDA_ERROR_PROFILER_ALREADY_STOPPED", "CUDA_ERROR_NO_DEVICE", "CUDA_ERROR_INVALID_DEVICE",
   "CUDA_ERROR_INVALID_IMAGE", "CUDA_ERROR_INVALID_CONTEXT",
   "CUDA_ERROR_CONTEXT_ALREADY_CURRENT", "CUDA_ERROR_MAP_FAILED", "CUDA_ERROR_UNMAP_FAILED",
   "CUDA_ERROR_ARRAY_IS_MAPPED", "CUDA_ERROR_ALREADY_MAPPED", "CUDA_ERROR_NO_BINARY_FOR_GPU",
   "CUDA_ERROR_ALREADY_ACQUIRED", "CUDA_ERROR_NOT_MAPPED", "CUDA_ERROR_NOT_MAPPED_AS_ARRAY",
   "CUDA_ERROR_NOT_MAPPED_AS_POINTER", "CUDA_ERROR_ECC_UNCORRECTABLE",
   "CUDA_ERROR_UNSUPPORTED_LIMIT", "CUDA_ERROR_CONTEXT_ALREADY_IN_USE",
   "CUDA_ERROR_PEER_ACCESS_UNSUPPORTED", "CUDA_ERROR_INVALID_PTX",
   "CUDA_ERROR_INVALID_GRAPHICS_CONTEXT", "CUDA_ERROR_NVLINK_UNCORRECTABLE",
   "CUDA_ERROR_JIT_COMPILER_NOT_FOUND", "CUDA_ERROR_INVALID_SOURCE", "CUDA_ERROR_FILE_NOT_FOUND",
   "CUDA_ERROR_SHARED_OBJECT_SYMBOL_NOT_FOUND", "CUDA_ERROR_SHARED_OBJECT_INIT_FAILED",
   "CUDA_ERROR_OPERATING_SYSTEM", "CUDA_ERROR_INVALID_HANDLE", "CUDA_ERROR_NOT_FOUND",
   "CUDA_ERROR_NOT_READY", "CUDA_ERROR_ILLEGAL_ADDRESS", "CUDA_ERROR_LAUNCH_OUT_OF_RESOURCES",
   "CUDA_ERROR_LAUNCH_TIMEOUT", "CUDA_ERROR_LAUNCH_INCOMPATIBLE_TEXTURING",
   "CUDA_ERROR_PEER_ACCESS_ALREADY_ENABLED", "CUDA_ERROR_PEER_ACCESS_NOT_ENABLED",
   "CUDA_ERROR_PRIMARY_CONTEXT_ACTIVE", "CUDA_ERROR_CONTEXT_IS_DESTROYED", "CUDA_ERROR_ASSERT",
   "CUDA_ERROR_TOO_MANY_PEERS", "CUDA_ERROR_HOST_MEMORY_ALREADY_REGISTERED",
   "CUDA_ERROR_HOST_MEMORY_NOT_REGISTERED", "CUDA_ERROR_HARDWARE_STACK_ERROR",
   "CUDA_ERROR_ILLEGAL_INSTRUCTION", "CUDA_ERROR_MISALIGNED_ADDRESS",
   "CUDA_ERROR_INVALID_ADDRESS_SPACE", "CUDA_ERROR_INVALID_PC", "CUDA_ERROR_LAUNCH_FAILED",
   "CUDA_ERROR_COOPERATIVE_LAUNCH_TOO_LARGE", "CUDA_ERROR_NOT_PERMITTED",
   "CUDA_ERROR_NOT_SUPPORTED", "CUDA_ERROR_UNKNOWN"]

/-- The last row of the table, `{ (CUresult) -1, nullptr }`. -/
def cuda_error_sentinel : CUDAErrorList :=
  { id := -1, value := none }

/-- The table `__cuda_error_list`, lines 39-163: one row per enumerator, holding its value and
its name, then the row `{ (CUresult) -1, nullptr }`. The values of the enumerators are
declared in the CUDA header `cuda.h`, which is not among the sources, so they are the
parameter `code`. -/
def cuda_error_list (code : String → Int) : List CUDAErrorList :=
  cuda_error_names.map (fun n => { id := code n, value := some n.toList }) ++
    [cuda_error_sentinel]

/-- The values that the CUDA driver API header gives to the enumerators of `CUresult`. -/
def cuda_h_values : List (String × Int) :=
  [("CUDA_SUCCESS", 0), ("CUDA_ERROR_INVALID_VALUE", 1), ("CUDA_ERROR_OUT_OF_MEMORY", 2),
   ("CUDA_ERROR_NOT_INITIALIZED", 3), ("CUDA_ERROR_DEINITIALIZED", 4),
   ("CUDA_ERROR_PROFILER_DISABLED", 5), ("CUDA_ERROR_PROFILER_NOT_INITIALIZED", 6),
   ("CUDA_ERROR_PROFILER_ALREADY_STARTED", 7), ("CUDA_ERROR_PROFILER_ALREADY_STOPPED", 8),
   ("CUDA_ERROR_NO_DEVICE", 100), ("CUDA_ERROR_INVALID_DEVICE", 101),
   ("CUDA_ERROR_INVALID_IMAGE", 200), ("CUDA_ERROR_INVALID_CONTEXT", 201),
   ("CUDA_ERROR_CONTEXT_ALREADY_CURRENT", 202), ("CUDA_ERROR_MAP_FAILED", 205),
   ("CUDA_ERROR_UNMAP_FAILED", 206), ("CUDA_ERROR_ARRAY_IS_MAPPED", 207),
   ("CUDA_ERROR_ALREADY_MAPPED", 208), ("CUDA_ERROR_NO_BINARY_FOR_GPU", 209),
   ("CUDA_ERROR_ALREADY_ACQUIRED", 210), ("CUDA_ERROR_NOT_MAPPED", 211),
   ("CUDA_ERROR_NOT_MAPPED_AS_ARRAY", 212), ("CUDA_ERROR_NOT_MAPPED_AS_POINTER", 213),
   ("CUDA_ERROR_ECC_UNCORRECTABLE", 214), ("CUDA_ERROR_UNSUPPORTED_LIMIT", 215),
   ("CUDA_ERROR_CONTEXT_ALREADY_IN_USE", 216), ("CUDA_ERROR_PEER_ACCESS_UNSUPPORTED", 217),
   ("CUDA_ERROR_INVALID_PTX", 218), ("CUDA_ERROR_INVALID_GRAPHICS_CONTEXT", 219),
   ("CUDA_ERROR_NVLINK_UNCORRECTABLE", 220), ("CUDA_ERROR_JIT_COMPILER_NOT_FOUND", 221),
   ("CUDA_ERROR_INVALID_SOURCE", 300), ("CUDA_ERROR_FILE_NOT_FOUND", 301),
   ("CUDA_ERROR_SHARED_OBJECT_SYMBOL_NOT_FOUND", 302),
   ("CUDA_ERROR_SHARED_OBJECT_INIT_FAILED", 303), ("CUDA_ERROR_OPERATING_SYSTEM", 304),
   ("CUDA_ERROR_INVALID_HANDLE", 400), ("CUDA_ERROR_NOT_FOUND", 500),
   ("CUDA_ERROR_NOT_READY", 600), ("CUDA_ERROR_ILLEGAL_ADDRESS", 700),
   ("CUDA_ERROR_LAUNCH_OUT_OF_RESOURCES", 701), ("CUDA_ERROR_LAUNCH_TIMEOUT", 702),
   ("CUDA_ERROR_LAUNCH_INCOMPATIBLE_TEXTURING", 703),
   ("CUDA_ERROR_PEER_ACCESS_ALREADY_ENABLED", 704), ("CUDA_ERROR_PEER_ACCESS_NOT_ENABLED", 705),
   ("CUDA_ERROR_PRIMARY_CONTEXT_ACTIVE", 708), ("CUDA_ERROR_CONTEXT_IS_DESTROYED", 709),
   ("CUDA_ERROR_ASSERT", 710), ("CUDA_ERROR_TOO_MANY_PEERS", 711),
   ("CUDA_ERROR_HOST_MEMORY_ALREADY_REGISTERED", 712),
   ("CUDA_ERROR_HOST_MEMORY_NOT_REGISTERED", 713), ("CUDA_ERROR_HARDWARE_STACK_ERROR", 714),
   ("CUDA_ERROR_ILLEGAL_INSTRUCTION", 715), ("CUDA_ERROR_MISALIGNED_ADDRESS", 716),
   ("CUDA_ERROR_INVALID_ADDRESS_SPACE", 717), ("CUDA_ERROR_INVALID_PC", 718),
   ("CUDA_ERROR_LAUNCH_FAILED", 719), ("CUDA_ERROR_COOPERATIVE_LAUNCH_TOO_LARGE", 720),
   ("CUDA_ERROR_NOT_PERMITTED", 800), ("CUDA_ERROR_NOT_SUPPORTED", 801),
   ("CUDA_ERROR_UNKNOWN", 999)]

/-- Value of an enumerator of `CUresult` in the CUDA driver API header. -/
def cuda_h (name : String) : Int :=
  match cuda_h_values.find? (fun e => e.1 = name) with
  | some e => e.2
  | none => 0

/-- The `while` loop of `cuda_error_string`, lines 168-170, over the rows from `index` on:
the index at which it stops, or `none` when it runs past the last row. -/
def cuda_error_scan (id : Int) : List CUDAErrorList → Nat → Option Nat
  | [], _ => none
  | r :: rest, index =>
    if r.id ≠ id ∧ r.id ≠ -1 then cuda_error_scan id rest (index + 1) else some index

/-- Function `cuda_error_string(id)`, lines 165-176, over the table `tbl`. The result is the
returned `const char *`, `none` for a null pointer. -/
def cuda_error_string (tbl : List CUDAErrorList) (id : Int) : Outcome (Option (List Char)) :=
  match cuda_error_scan id tbl 0 with
  | none => Outcome.undefined "__cuda_error_list[index]"
  | some index =>
    match tbl.get? index with
    | none => Outcome.undefined "__cuda_error_list[index]"
    | some r =>
      if r.id = id then Outcome.returned r.value
      else Outcome.returned (some "Invalid CUDA error status!".toList)

/-- Function `cuda_check_impl(CUresult errval, const char *file, const int line)`, lines
178-185. `code` gives the values of the enumerators of `CUresult`. -/
def cuda_check_impl (code : String → Int) (errval : Int) (file : List Char) (line : Int) :
    List Event × Outcome Unit :=
  if errval ≠ code "CUDA_SUCCESS" ∧ errval ≠ code "CUDA_ERROR_DEINITIALIZED" then
    match cuda_error_string (cuda_error_list code) errval with
    | Outcome.returned err_msg =>
      (jit_log LogLevel.Error "cuda_check(): driver API error = %04d \"%s\" in %s:%i.\n"
        [Arg.int errval, Arg.ofCStr err_msg, Arg.str file, Arg.int line],
       Outcome.exited EXIT_FAILURE)
    | _ => ([], Outcome.undefined "__cuda_error_list[index]")
  else ([], Outcome.returned ())

/-- Function `cuda_check_impl(cudaError_t errval, const char *file, const int line)`, lines
187-194. The CUDA runtime is not among the sources: `cudaSuccess` and
`cudaErrorCudartUnloading` are the values of these enumerators and `cudaGetErrorName` the
result of the runtime call. -/
def cuda_check_impl_runtime (cudaSuccess cudaErrorCudartUnloading : Int)
    (cudaGetErrorName : Int → Option (List Char)) (errval : Int) (file : List Char)
    (line : Int) : List Event × Outcome Unit :=
  if errval ≠ cudaSuccess ∧ errval ≠ cudaErrorCudartUnloading then
    (jit_log LogLevel.Error "cuda_check(): runtime API error = %04d \"%s\" in %s:%i.\n"
      [Arg.int errval, Arg.ofCStr (cudaGetErrorName errval), Arg.str file, Arg.int line],
     Outcome.exited EXIT_FAILURE)
  else ([], Outcome.returned ())

/-! ## Conditions and sample inputs used in the statements -/

/-- The environments in which a first call of `jit_llvm_init` gets as far as the creation of
the execution engine: not attempted before, the library opens, every entry point resolves,
and the context, the disassembler and its options are obtained. -/
def init_reaches_mcjit (env : InitEnv) (s : JitState) : Prop :=
  s.jit_llvm_init_attempted = false ∧
  (open_library env s.jit_llvm_handle).1 ≠ 0 ∧
  (∀ n ∈ required_symbols, env.dlsym (open_library env s.jit_llvm_handle).1 n ≠ 0) ∧
  env.LLVMGetGlobalContext ≠ 0 ∧
  env.LLVMCreateDisasm ≠ 0 ∧
  env.LLVMSetDisasmOptions ≠ 0

instance (env : InitEnv) (s : JitState) : Decidable (init_reaches_mcjit env s) := by
  unfold init_reaches_mcjit; infer_instance

/-- A Linux host on which `libLLVM.so` opens and every entry point resolves; the context and
the disassembler are obtained, `LLVMCreateMCJITCompilerForModule` returns `mcjit`, and the
host reports the feature string `features`. -/
def env_linux (features : List Char) (mcjit : Int) : InitEnv :=
  { platform := Platform.linux
    dlopen := fun _ => 4096
    glob := none
    dlsym := fun _ _ => 8192
    LLVMGetGlobalContext := 12288
    LLVMGetDefaultTargetTriple := "x86_64-unknown-linux-gnu".toList
    LLVMCreateDisasm := 16384
    LLVMSetDisasmOptions := 1
    LLVMCreateSimpleMCJITMemoryManager := 20480
    LLVMModuleCreateWithName := 24576
    LLVMCreateMCJITCompilerForModule := mcjit
    mcjit_engine := if mcjit = 0 then some 28672 else none
    mcjit_error := if mcjit = 0 then [] else "no target".toList
    LLVMGetHostCPUName := "skylake".toList
    LLVMGetHostCPUFeatures := features }

/-- The state after a successful first `jit_llvm_init` on an AVX host. -/
def state_bound : JitState :=
  (jit_llvm_init (env_linux "+avx".toList 0) JitState.initial).state

/-- The bound state with an arena at address `65536` of capacity `size` and cursor `offset`. -/
def state_arena (size offset : Nat) : JitState :=
  { state_bound with jit_llvm_mem := 65536
                     jit_llvm_mem_size := size
                     jit_llvm_mem_offset := offset }

/-- A compilation in which every system and toolchain call succeeds: the arena is placed at
`65536`, the engine asks for one 24-byte code section and resolves the entry point to the
arena base, and the mapping is created at `131072`. -/
def env_compile : CompileEnv :=
  { posix_memalign := 0
    posix_memalign_ptr := 65536
    LLVMCreateMemoryBufferWithMemoryRange := 32768
    parse_module := 36864
    parse_error := none
    codegen := [{ size := 24, align := 16, name := ".text".toList, data := none }]
    emit := fun h => h
    LLVMGetFunctionAddress := 65536
    trace := false
    LLVMDisasmInstruction := fun _ => (0, [])
    mmap := 131072
    mmap_strerror := "Cannot allocate memory".toList
    mprotect := 0
    mprotect_strerror := "Permission denied".toList
    remove_module := 36864
    remove_error := none }

/-- A NUL-terminated IR text of 42 characters holding the placeholder `enoki_^^^^^^^^`. -/
def ir_text : List Char :=
  "define void @enoki_^^^^^^^^() \x7b ret void \x7d".toList ++ [Char.ofNat 0]

/-- A NUL-terminated IR text of 34 characters without the placeholder. -/
def ir_text_plain : List Char :=
  "define void @kernel() \x7b ret void \x7d".toList ++ [Char.ofNat 0]

/-- A NUL-terminated text of 8 characters: the start of the placeholder and nothing else. -/
def ir_text_short : List Char :=
  "enoki_^^".toList ++ [Char.ofNat 0]

/-- The states in which `jit_llvm_compile` may be called: the entry points it calls, the
context, the engine and the disassembler have been bound, and the arena pointer is null or
points to a block that has not been freed. -/
def compile_ready (s : JitState) : Prop :=
  get_fn s.fn_table "LLVMCreateMemoryBufferWithMemoryRange" ≠ 0 ∧
  get_fn s.fn_table "LLVMParseIRInContext" ≠ 0 ∧
  get_fn s.fn_table "LLVMAddModule" ≠ 0 ∧
  get_fn s.fn_table "LLVMGetFunctionAddress" ≠ 0 ∧
  get_fn s.fn_table "LLVMDisasmInstruction" ≠ 0 ∧
  get_fn s.fn_table "LLVMRemoveModule" ≠ 0 ∧
  get_fn s.fn_table "LLVMDisposeModule" ≠ 0 ∧
  s.jit_llvm_context ≠ 0 ∧
  s.jit_llvm_engine ≠ 0 ∧
  s.jit_llvm_disasm ≠ 0 ∧
  s.jit_llvm_mem_freed = false

instance (s : JitState) : Decidable (compile_ready s) := by
  unfold compile_ready; infer_instance

/-- Value of one lowercase hexadecimal digit. -/
def hex_digit_value (c : Char) : Nat :=
  if c.toNat < 58 then c.toNat - 48 else c.toNat - 87

/-- Value of a string of lowercase hexadecimal digits, most significant digit first. -/
def hex_value (digits : List Char) : Nat :=
  digits.foldl (fun acc c => acc * 16 + hex_digit_value c) 0

/-- The entry-symbol name an event hands to the toolchain: the third argument of
`LLVMCreateMemoryBufferWithMemoryRange`, which line 141 passes right after the name has been
written into the IR text. -/
def entry_symbol_of : Event → Option (List Char)
  | Event.llvm fn [_, _, Arg.str name, _] =>
    if fn = "LLVMCreateMemoryBufferWithMemoryRange" then some name else none
  | _ => none

/-- The entry-symbol names used in a trace, in order. -/
def entry_symbol_names (events : List Event) : List (List Char) :=
  events.filterMap entry_symbol_of

/-- One call of the public interface, with the outcomes of the calls it makes outside the
program. -/
inductive Op
  | init (env : InitEnv)
  | compile (env : CompileEnv) (buffer : List Char) (buffer_size : Nat)
  | free (munmap : Int) (kernel : Kernel)
  | shutdown

/-- The trace of a sequence of calls in one process. A call that ends in `jit_fail`, in
`exit`, inside the engine or in undefined behaviour ends the process; after `jit_raise` the
caller goes on. A `jit_llvm_shutdown` that frees an arena block a second time (line 396 after
the `free` of line 127) is undefined behaviour, too. -/
def run_ops : List Op → JitState → Heap → List Event
  | [], _, _ => []
  | Op.init env :: rest, s, h =>
    (jit_llvm_init env s).events ++ run_ops rest (jit_llvm_init env s).state h
  | Op.compile env buffer buffer_size :: rest, s, h =>
    match (jit_llvm_compile env s buffer buffer_size h).outcome with
    | Outcome.returned _ =>
      (jit_llvm_compile env s buffer buffer_size h).events ++
        run_ops rest (jit_llvm_compile env s buffer buffer_size h).state
          (jit_llvm_compile env s buffer buffer_size h).heap
    | Outcome.raised _ _ =>
      (jit_llvm_compile env s buffer buffer_size h).events ++
        run_ops rest (jit_llvm_compile env s buffer buffer_size h).state
          (jit_llvm_compile env s buffer buffer_size h).heap
    | _ => (jit_llvm_compile env s buffer buffer_size h).events
  | Op.free munmap kernel :: rest, s, h =>
    match jit_llvm_free munmap kernel with
    | Outcome.returned _ => run_ops rest s h
    | _ => []
  | Op.shutdown :: rest, s, h =>
    if s.jit_llvm_init_success = true ∧ s.jit_llvm_mem_freed = true then
      (jit_llvm_shutdown s).2
    else (jit_llvm_shutdown s).2 ++ run_ops rest (jit_llvm_shutdown s).1 h

/-- Whether an operation is a call of `jit_llvm_compile`. -/
def Op.isCompile : Op → Bool
  | Op.compile _ _ _ => true
  | _ => false

/-- Whether an operation is a call of `jit_llvm_shutdown`. -/
def Op.isShutdown : Op → Bool
  | Op.shutdown => true
  | _ => false

/-! ## Lemmas: string search -/

/-- The search finds an occurrence exactly when the needle is an infix of the text. -/
theorem find_first_isSome (needle : List Char) (hay : List Char) :
    (find_first needle hay).isSome = true ↔ needle <:+: hay := by
  induction hay with
  | nil =>
    by_cases h : needle = [] <;> simp [find_first, h]
  | cons c rest ih =>
    unfold find_first
    by_cases hp : needle.isPrefixOf (c :: rest) = true
    · have hp2 : needle <+: c :: rest := List.isPrefixOf_iff_prefix.mp hp
      simp only [hp, if_true, Option.isSome_some, true_iff]
      exact hp2.isInfix
    · have hp2 : ¬ needle <+: c :: rest := fun h => hp (List.isPrefixOf_iff_prefix.mpr h)
      simp only [hp, Option.isSome_map']
      rw [if_neg (by simp), Option.isSome_map', ih, List.infix_cons_iff]
      simp [hp2]

/-- A non-null result of `strstr` means that the needle occurs in the C string. -/
theorem strstr_isSome (f needle : List Char) :
    (strstr f needle).isSome = true ↔ needle <:+: cstr f := by
  unfold strstr; exact find_first_isSome _ _

/-- The three assignments of lines 354-359 amount to a choice by the most specific marker. -/
theorem detect_vector_width_cases (f : List Char) :
    detect_vector_width f =
      if (strstr f "+avx512f".toList).isSome then 16
      else if (strstr f "+avx".toList).isSome then 8
      else if (strstr f "+sse4.2".toList).isSome then 4 else 1 := by
  unfold detect_vector_width
  by_cases h1 : (strstr f "+avx512f".toList).isSome = true <;>
  by_cases h2 : (strstr f "+avx".toList).isSome = true <;>
  by_cases h3 : (strstr f "+sse4.2".toList).isSome = true <;>
  simp [h1, h2, h3]

/-! ## Lemmas: binding -/

/-- When every entry point resolves, the `LOAD` block ends with `symbol` null. -/
theorem load_symbols_all (handle : Ptr) (dlsym : Ptr → String → Ptr) (names : List String)
    (tbl : List (String × Ptr)) (h : ∀ n ∈ names, dlsym handle n ≠ 0) :
    (load_symbols handle dlsym names tbl).2.1 = none := by
  induction names generalizing tbl with
  | nil => rfl
  | cons n rest ih =>
    have hn : dlsym handle n ≠ 0 := h n (List.mem_cons_self _ _)
    simp only [load_symbols, hn, if_false]
    exact ih _ (fun m hm => h m (List.mem_cons_of_mem _ hm))

/-- A first call that passes every step up to the engine creation either takes the failure
return of line 347 or continues with the detection of lines 350-374. -/
theorem jit_llvm_init_reaches (env : InitEnv) (s : JitState) (h : init_reaches_mcjit env s) :
    ∃ s1 ev, jit_llvm_init env s =
      (if env.LLVMCreateMCJITCompilerForModule ≠ 0 then
        ({ state := s1, ret := int_to_bool (-1), events := ev } : InitResult)
       else jit_llvm_init_detect env s1 env.LLVMGetDefaultTargetTriple ev) := by
  obtain ⟨h0, h1, h2, h3, h4, h5⟩ := h
  have hl := load_symbols_all _ env.dlsym required_symbols s.fn_table h2
  unfold jit_llvm_init
  simp only [h0, Bool.false_eq_true, if_false, h1]
  rw [hl]
  simp only [jit_llvm_init_secondary, h3, h4, h5, if_false]
  by_cases hm : env.LLVMCreateMCJITCompilerForModule ≠ 0
  · simp only [hm, if_true, ne_eq, not_false_eq_true]
    exact ⟨_, _, rfl⟩
  · simp only [hm, if_false]
    exact ⟨_, _, rfl⟩

/-- The detection stores the detected width and returns whether it exceeds 1. -/
theorem jit_llvm_init_detect_result (env : InitEnv) (s : JitState) (triple : List Char)
    (ev : List Event) :
    (jit_llvm_init_detect env s triple ev).state.jit_llvm_vector_width =
        detect_vector_width env.LLVMGetHostCPUFeatures ∧
      (jit_llvm_init_detect env s triple ev).ret =
        decide (detect_vector_width env.LLVMGetHostCPUFeatures > 1) := by
  unfold jit_llvm_init_detect
  by_cases hw : detect_vector_width env.LLVMGetHostCPUFeatures > 1
  · simp [hw]
  · simp [hw, jit_llvm_shutdown]

/-- Lines 230-231: once attempted, `jit_llvm_init` returns the cached flag, changes nothing
and calls nothing. -/
theorem jit_llvm_init_cached (env : InitEnv) (s : JitState)
    (h : s.jit_llvm_init_attempted = true) :
    jit_llvm_init env s = { state := s, ret := s.jit_llvm_init_success, events := [] } := by
  unfold jit_llvm_init
  rw [if_pos h]

/-- The `Z(...)` assignments null every pointer whose name is in the list. -/
theorem foldl_set_fn_zero (names : List String) (tbl : List (String × Ptr)) :
    names.foldl (fun t n => set_fn t n 0) tbl =
      tbl.map (fun e => if e.1 ∈ names then (e.1, 0) else e) := by
  induction names generalizing tbl with
  | nil => simp
  | cons n rest ih =>
    rw [List.foldl_cons, ih, set_fn, List.map_map]
    apply List.map_congr_left
    intro e _
    by_cases he : e.1 = n
    · simp [he]
    · simp [he]

/-- Clearing a table of the 26 entry points gives the table of the initial state. -/
theorem clear_fn_table (tbl : List (String × Ptr))
    (h : tbl.map Prod.fst = required_symbols) :
    required_symbols.foldl (fun t n => set_fn t n 0) tbl = fn_table_null := by
  rw [foldl_set_fn_zero, fn_table_null, ← h, List.map_map]
  apply List.map_congr_left
  intro e he
  have hm : e.1 ∈ tbl.map Prod.fst := List.mem_map_of_mem Prod.fst he
  simp [hm]

/-- The detection keeps `jit_llvm_init_attempted` and returns `jit_llvm_init_success`. -/
theorem jit_llvm_init_detect_flags (env : InitEnv) (s : JitState) (triple : List Char)
    (ev : List Event) (ha : s.jit_llvm_init_attempted = true) :
    (jit_llvm_init_detect env s triple ev).state.jit_llvm_init_attempted = true ∧
      (jit_llvm_init_detect env s triple ev).ret =
        (jit_llvm_init_detect env s triple ev).state.jit_llvm_init_success := by
  unfold jit_llvm_init_detect
  by_cases hw : detect_vector_width env.LLVMGetHostCPUFeatures > 1
  · simp [hw, ha]
  · simp [hw, ha, jit_llvm_shutdown]

/-- The secondary steps keep `jit_llvm_init_attempted`; the returned value is the stored
`jit_llvm_init_success` on every path but the failure of the engine creation. -/
theorem jit_llvm_init_secondary_flags (env : InitEnv) (s : JitState) (ev : List Event)
    (ha : s.jit_llvm_init_attempted = true) (hs : s.jit_llvm_init_success = false) :
    (jit_llvm_init_secondary env s ev).state.jit_llvm_init_attempted = true ∧
      ((jit_llvm_init_secondary env s ev).ret =
          (jit_llvm_init_secondary env s ev).state.jit_llvm_init_success ∨
        (env.LLVMGetGlobalContext ≠ 0 ∧ env.LLVMCreateDisasm ≠ 0 ∧
          env.LLVMSetDisasmOptions ≠ 0 ∧ env.LLVMCreateMCJITCompilerForModule ≠ 0)) := by
  unfold jit_llvm_init_secondary
  by_cases h1 : env.LLVMGetGlobalContext = 0
  · simp [h1, ha, hs]
  · by_cases h2 : env.LLVMCreateDisasm = 0
    · simp [h1, h2, ha, hs]
    · by_cases h3 : env.LLVMSetDisasmOptions = 0
      · simp [h1, h2, h3, ha, hs]
      · by_cases h4 : env.LLVMCreateMCJITCompilerForModule = 0
        · simp only [h1, h2, h3, h4, if_false, ne_eq, not_true_eq_false]
          cases he : env.mcjit_engine with
          | none =>
            obtain ⟨h5, h6⟩ := jit_llvm_init_detect_flags env
              { s with jit_llvm_context := env.LLVMGetGlobalContext
                       jit_llvm_disasm := env.LLVMCreateDisasm }
              env.LLVMGetDefaultTargetTriple
              (ev ++ [Event.llvm "LLVMGetGlobalContext" []] ++
                [Event.llvm "LLVMGetDefaultTargetTriple" [],
                 Event.llvm "LLVMCreateDisasm" [Arg.str env.LLVMGetDefaultTargetTriple,
                   Arg.null, Arg.int 0, Arg.null, Arg.null]] ++
                [Event.llvm "LLVMSetDisasmOptions"
                  [Arg.ptr env.LLVMCreateDisasm, Arg.int disasm_options]] ++
                [Event.llvm "LLVMCreateSimpleMCJITMemoryManager" [],
                 Event.llvm "LLVMModuleCreateWithName" [Arg.str "enoki".toList],
                 Event.llvm "LLVMCreateMCJITCompilerForModule"
                   [Arg.ptr env.LLVMModuleCreateWithName]]) ha
            exact ⟨h5, Or.inl h6⟩
          | some e =>
            obtain ⟨h5, h6⟩ := jit_llvm_init_detect_flags env
              { s with jit_llvm_context := env.LLVMGetGlobalContext
                       jit_llvm_disasm := env.LLVMCreateDisasm
                       jit_llvm_engine := e }
              env.LLVMGetDefaultTargetTriple
              (ev ++ [Event.llvm "LLVMGetGlobalContext" []] ++
                [Event.llvm "LLVMGetDefaultTargetTriple" [],
                 Event.llvm "LLVMCreateDisasm" [Arg.str env.LLVMGetDefaultTargetTriple,
                   Arg.null, Arg.int 0, Arg.null, Arg.null]] ++
                [Event.llvm "LLVMSetDisasmOptions"
                  [Arg.ptr env.LLVMCreateDisasm, Arg.int disasm_options]] ++
                [Event.llvm "LLVMCreateSimpleMCJITMemoryManager" [],
                 Event.llvm "LLVMModuleCreateWithName" [Arg.str "enoki".toList],
                 Event.llvm "LLVMCreateMCJITCompilerForModule"
                   [Arg.ptr env.LLVMModuleCreateWithName]]) ha
            exact ⟨h5, Or.inl h6⟩
        · simp only [h1, h2, h3, h4, if_false, ne_eq, not_false_eq_true, if_true]
          refine ⟨?_, Or.inr ⟨trivial, trivial, trivial, trivial⟩⟩
          cases env.mcjit_engine <;> exact ha

/-- When the `LOAD` block ends with `symbol` null, every entry point resolved. -/
theorem load_symbols_none (handle : Ptr) (dlsym : Ptr → String → Ptr) (names : List String)
    (tbl : List (String × Ptr)) (h : (load_symbols handle dlsym names tbl).2.1 = none) :
    ∀ n ∈ names, dlsym handle n ≠ 0 := by
  induction names generalizing tbl with
  | nil => intro n hn; cases hn
  | cons m rest ih =>
    by_cases hm : dlsym handle m = 0
    · simp [load_symbols, hm] at h
    · simp only [load_symbols, hm, if_false] at h
      intro n hn
      rcases List.mem_cons.mp hn with rfl | hn
      · exact hm
      · exact ih _ h n hn

/-- After any call `jit_llvm_init_attempted` is set, and the returned value is the stored
`jit_llvm_init_success` unless the call ended at the failure of the engine creation. -/
theorem jit_llvm_init_flags (env : InitEnv) (s : JitState)
    (hinv : s.jit_llvm_init_success = true → s.jit_llvm_init_attempted = true) :
    (jit_llvm_init env s).state.jit_llvm_init_attempted = true ∧
      ((jit_llvm_init env s).ret = (jit_llvm_init env s).state.jit_llvm_init_success ∨
        (init_reaches_mcjit env s ∧ env.LLVMCreateMCJITCompilerForModule ≠ 0)) := by
  by_cases ha : s.jit_llvm_init_attempted = true
  · rw [jit_llvm_init_cached env s ha]
    exact ⟨ha, Or.inl rfl⟩
  · have ha2 : s.jit_llvm_init_attempted = false := by simpa using ha
    have hs : s.jit_llvm_init_success = false := by
      cases h : s.jit_llvm_init_success with
      | false => rfl
      | true => exact absurd (hinv h) ha
    unfold jit_llvm_init
    rw [if_neg ha]
    simp only
    by_cases hh : (open_library env s.jit_llvm_handle).1 = 0
    · rw [if_pos hh]
      exact ⟨rfl, Or.inl hs.symm⟩
    · rw [if_neg hh]
      cases hl : (load_symbols (open_library env s.jit_llvm_handle).1 env.dlsym
          required_symbols s.fn_table).2.1 with
      | some symbol => exact ⟨rfl, Or.inl hs.symm⟩
      | none =>
        simp only
        obtain ⟨h5, h6⟩ := jit_llvm_init_secondary_flags env
          { s with jit_llvm_init_attempted := true
                   jit_llvm_handle := (open_library env s.jit_llvm_handle).1
                   fn_table := (load_symbols (open_library env s.jit_llvm_handle).1 env.dlsym
                     required_symbols s.fn_table).1 }
          ((open_library env s.jit_llvm_handle).2 ++
            (load_symbols (open_library env s.jit_llvm_handle).1 env.dlsym
              required_symbols s.fn_table).2.2 ++ llvm_register_target) rfl hs
        refine ⟨h5, ?_⟩
        rcases h6 with h6 | ⟨h61, h62, h63, h64⟩
        · exact Or.inl h6
        · exact Or.inr ⟨⟨ha2, hh, load_symbols_none _ _ _ _ hl, h61, h62, h63⟩, h64⟩

/-- A call right after another one returns the stored flag, changes nothing and makes no
call to the loader or to LLVM. -/
theorem jit_llvm_init_second_call (env env2 : InitEnv) (s : JitState)
    (hinv : s.jit_llvm_init_success = true → s.jit_llvm_init_attempted = true) :
    jit_llvm_init env2 (jit_llvm_init env s).state =
      { state := (jit_llvm_init env s).state
        ret := (jit_llvm_init env s).state.jit_llvm_init_success
        events := [] } :=
  jit_llvm_init_cached env2 _ (jit_llvm_init_flags env s hinv).1

/-- Two consecutive calls return the same value whenever the first one did not end at the
failure of the engine creation. -/
theorem jit_llvm_init_idempotent (env env2 : InitEnv) (s : JitState)
    (hinv : s.jit_llvm_init_success = true → s.jit_llvm_init_attempted = true)
    (hm : ¬ (init_reaches_mcjit env s ∧ env.LLVMCreateMCJITCompilerForModule ≠ 0)) :
    (jit_llvm_init env2 (jit_llvm_init env s).state).ret = (jit_llvm_init env s).ret ∧
      (jit_llvm_init env2 (jit_llvm_init env s).state).events = [] := by
  rw [jit_llvm_init_second_call env env2 s hinv]
  rcases (jit_llvm_init_flags env s hinv).2 with h | h
  · exact ⟨h.symm, rfl⟩
  · exact absurd h hm

/-- Line 347: whenever the engine creation fails, `jit_llvm_init` returns `true`. -/
theorem jit_llvm_init_true_when_mcjit_fails (env : InitEnv) (s : JitState)
    (h : init_reaches_mcjit env s) (hm : env.LLVMCreateMCJITCompilerForModule ≠ 0) :
    (jit_llvm_init env s).ret = true := by
  obtain ⟨s1, ev, hr⟩ := jit_llvm_init_reaches env s h
  rw [if_pos hm] at hr
  rw [hr]
  rfl

/-- Lines 304-325: a null context, a null disassembler or rejected disassembler options give
a warning and the return value `false`. -/
theorem jit_llvm_init_secondary_failure (env : InitEnv) (s : JitState) (ev : List Event)
    (h : env.LLVMGetGlobalContext = 0 ∨ env.LLVMCreateDisasm = 0 ∨
      env.LLVMSetDisasmOptions = 0) :
    (jit_llvm_init_secondary env s ev).ret = false ∧
      ∃ fmt args, Event.log LogLevel.Warn fmt args ∈ (jit_llvm_init_secondary env s ev).events := by
  unfold jit_llvm_init_secondary
  by_cases h1 : env.LLVMGetGlobalContext = 0
  · simp only [h1, if_true]
    exact ⟨by first | rfl | trivial, "jit_llvm_init(): could not obtain context!", [],
      by simp [jit_log]⟩
  · by_cases h2 : env.LLVMCreateDisasm = 0
    · simp only [h1, h2, if_false, if_true]
      exact ⟨by first | rfl | trivial, "jit_llvm_init(): could not create a disassembler!", [],
        by simp [jit_log]⟩
    · by_cases h3 : env.LLVMSetDisasmOptions = 0
      · simp only [h1, h2, h3, if_false, if_true]
        exact ⟨by first | rfl | trivial, "jit_llvm_init(): could not configure disassembler!",
          [], by simp [jit_log]⟩
      · rcases h with h | h | h
        · exact absurd h h1
        · exact absurd h h2
        · exact absurd h h3

/-! ## Lemmas: arena -/

/-- Without wrap-around, line 95 computes the least multiple of the alignment that is not
below the cursor. -/
theorem offset_align_spec (c a : Nat) (ha : 0 < a) (hc : c + (a - 1) < SIZE_MOD) :
    a ∣ offset_align c a ∧ c ≤ offset_align c a ∧ offset_align c a < c + a ∧
      ∀ m, a ∣ m → c ≤ m → offset_align c a ≤ m := by
  unfold offset_align
  rw [Nat.mod_eq_of_lt hc]
  have hdm := Nat.div_add_mod (c + (a - 1)) a
  have hml := Nat.mod_lt (c + (a - 1)) ha
  have hcomm : a * ((c + (a - 1)) / a) = (c + (a - 1)) / a * a := Nat.mul_comm _ _
  refine ⟨Nat.dvd_mul_left _ _, by omega, by omega, ?_⟩
  rintro m ⟨k, rfl⟩ hk
  rw [Nat.mul_comm a k]
  apply Nat.mul_le_mul_right
  apply Nat.le_of_lt_succ
  rw [Nat.div_lt_iff_lt_mul ha]
  have h5 : k.succ * a = a * k + a := by rw [Nat.succ_mul, Nat.mul_comm]
  omega

/-- The heap, the state and the returned pointer of `jit_llvm_mem_allocate`, field by field. -/
theorem jit_llvm_mem_allocate_fields (s : JitState) (h : Heap) (size align : Nat)
    (name : List Char) :
    (jit_llvm_mem_allocate s h size align name).heap =
        memset_zero h (s.jit_llvm_mem + s.jit_llvm_mem_offset)
          ((offset_align s.jit_llvm_mem_offset (if align = 0 then 16 else align) + SIZE_MOD
            - s.jit_llvm_mem_offset) % SIZE_MOD) ∧
      (jit_llvm_mem_allocate s h size align name).state =
        { s with jit_llvm_mem_offset :=
            (offset_align s.jit_llvm_mem_offset (if align = 0 then 16 else align) + size)
              % SIZE_MOD } ∧
      (jit_llvm_mem_allocate s h size align name).ptr =
        (if (offset_align s.jit_llvm_mem_offset (if align = 0 then 16 else align) + size)
            % SIZE_MOD > s.jit_llvm_mem_size
         then 0
         else s.jit_llvm_mem +
           offset_align s.jit_llvm_mem_offset (if align = 0 then 16 else align)) := by
  unfold jit_llvm_mem_allocate
  simp only
  by_cases hgt : (offset_align s.jit_llvm_mem_offset (if align = 0 then 16 else align) + size)
      % SIZE_MOD > s.jit_llvm_mem_size
  · rw [if_pos hgt]
    exact ⟨rfl, rfl, by rw [if_pos hgt]⟩
  · rw [if_neg hgt]
    exact ⟨rfl, rfl, by rw [if_neg hgt]⟩

/-- When line 95 does not wrap around: the aligned offset is the least multiple of the
effective alignment not below the cursor, exactly the bytes between the cursor and the
aligned offset are zeroed (wherever the capacity lies), the cursor becomes the aligned offset
plus the size modulo `2 ^ 64`, the result is the base plus the aligned offset when the new
cursor is within the capacity and null otherwise, and `jit_llvm_mem_allocate_data` does the
same whatever its `read_only` flag. -/
theorem jit_llvm_mem_allocate_spec (s : JitState) (h : Heap) (size align : Nat)
    (name : List Char)
    (hc : s.jit_llvm_mem_offset + ((if align = 0 then 16 else align) - 1) < SIZE_MOD) :
    (if align = 0 then 16 else align) ∣
        offset_align s.jit_llvm_mem_offset (if align = 0 then 16 else align) ∧
      s.jit_llvm_mem_offset ≤
        offset_align s.jit_llvm_mem_offset (if align = 0 then 16 else align) ∧
      (∀ m, (if align = 0 then 16 else align) ∣ m → s.jit_llvm_mem_offset ≤ m →
        offset_align s.jit_llvm_mem_offset (if align = 0 then 16 else align) ≤ m) ∧
      (∀ p, (jit_llvm_mem_allocate s h size align name).heap p =
        if s.jit_llvm_mem + s.jit_llvm_mem_offset ≤ p ∧
            p < s.jit_llvm_mem +
              offset_align s.jit_llvm_mem_offset (if align = 0 then 16 else align)
        then 0 else h p) ∧
      (jit_llvm_mem_allocate s h size align name).state.jit_llvm_mem_offset =
        (offset_align s.jit_llvm_mem_offset (if align = 0 then 16 else align) + size)
          % SIZE_MOD ∧
      (jit_llvm_mem_allocate s h size align name).ptr =
        (if (offset_align s.jit_llvm_mem_offset (if align = 0 then 16 else align) + size)
            % SIZE_MOD ≤ s.jit_llvm_mem_size
         then s.jit_llvm_mem +
           offset_align s.jit_llvm_mem_offset (if align = 0 then 16 else align)
         else 0) ∧
      ∀ read_only : Int,
        jit_llvm_mem_allocate_data s h size align name read_only =
          jit_llvm_mem_allocate s h size align name := by
  have ha : 0 < (if align = 0 then 16 else align) := by
    by_cases h0 : align = 0
    · rw [if_pos h0]; decide
    · rw [if_neg h0]; exact Nat.pos_of_ne_zero h0
  obtain ⟨hf1, hf2, hf3⟩ := jit_llvm_mem_allocate_fields s h size align name
  rw [hf1, hf2, hf3]
  generalize (if align = 0 then 16 else align) = a at hc ha ⊢
  obtain ⟨h1, h2, h3, h4⟩ := offset_align_spec s.jit_llvm_mem_offset a ha hc
  generalize offset_align s.jit_llvm_mem_offset a = oa at h1 h2 h3 h4 ⊢
  have hlen : (oa + SIZE_MOD - s.jit_llvm_mem_offset) % SIZE_MOD =
      oa - s.jit_llvm_mem_offset := by
    have hlt : oa - s.jit_llvm_mem_offset < SIZE_MOD := by omega
    have he : oa + SIZE_MOD - s.jit_llvm_mem_offset =
        (oa - s.jit_llvm_mem_offset) + SIZE_MOD := by omega
    rw [he, Nat.add_mod_right, Nat.mod_eq_of_lt hlt]
  refine ⟨h1, h2, h4, ?_, rfl, ?_, fun _ => rfl⟩
  · intro p
    rw [hlen]
    unfold memset_zero
    rw [Nat.add_assoc, Nat.add_sub_cancel' h2]
  · by_cases hgt : (oa + size) % SIZE_MOD > s.jit_llvm_mem_size
    · rw [if_pos hgt, if_neg (by omega)]
    · rw [if_neg hgt, if_pos (by omega)]

/-- A call that returns a pointer other than null leaves the cursor within the capacity. -/
theorem jit_llvm_mem_allocate_inv (s : JitState) (h : Heap) (size align : Nat)
    (name : List Char) (hp : (jit_llvm_mem_allocate s h size align name).ptr ≠ 0) :
    arena_inv (jit_llvm_mem_allocate s h size align name).state := by
  unfold jit_llvm_mem_allocate at hp ⊢
  simp only at hp ⊢
  by_cases hgt : (offset_align s.jit_llvm_mem_offset (if align = 0 then 16 else align) + size)
      % SIZE_MOD > s.jit_llvm_mem_size
  · rw [if_pos hgt] at hp
    exact absurd rfl hp
  · rw [if_neg hgt]
    exact Nat.le_of_not_lt hgt

/-- The arena reset of `jit_llvm_compile` leaves the cursor at 0. -/
theorem jit_llvm_compile_reset_inv (env : CompileEnv) (s s1 : JitState) (buffer_size : Nat)
    (hr : (jit_llvm_compile_reset env s buffer_size).1 = Outcome.returned s1) :
    arena_inv s1 := by
  unfold jit_llvm_compile_reset at hr
  split at hr
  · split at hr
    · simp at hr
    · split at hr
      · simp at hr
      · simp only [Outcome.returned.injEq] at hr
        subst hr
        exact Nat.zero_le _
  · simp only [Outcome.returned.injEq] at hr
    subst hr
    exact Nat.zero_le _

/-- The shutdown keeps the cursor within the capacity. -/
theorem jit_llvm_shutdown_inv (s : JitState) (hs : arena_inv s) :
    arena_inv (jit_llvm_shutdown s).1 := by
  unfold jit_llvm_shutdown
  split
  · exact hs
  · exact Nat.le_refl _

/-! ## Lemmas: diagnostics -/

/-- The scan always stops at a row of the table: the sentinel row ends it at the latest. -/
theorem cuda_error_scan_stops (id : Int) (rows pre : List CUDAErrorList) :
    ∃ j r, cuda_error_scan id (rows ++ [cuda_error_sentinel]) pre.length = some j ∧
      (pre ++ (rows ++ [cuda_error_sentinel])).get? j = some r := by
  induction rows generalizing pre with
  | nil =>
    refine ⟨pre.length, cuda_error_sentinel, ?_, ?_⟩
    · simp [cuda_error_scan, cuda_error_sentinel]
    · simp
  | cons r rest ih =>
    by_cases hc : r.id ≠ id ∧ r.id ≠ -1
    · obtain ⟨j, r1, h1, h2⟩ := ih (pre ++ [r])
      refine ⟨j, r1, ?_, ?_⟩
      · rw [List.cons_append, cuda_error_scan, if_pos hc]
        simpa using h1
      · simpa using h2
    · refine ⟨pre.length, r, ?_, ?_⟩
      · rw [List.cons_append, cuda_error_scan, if_neg hc]
      · rw [List.get?_eq_getElem?, List.getElem?_append_right (le_refl _)]
        simp

/-- The function `cuda_error_string` never reads past the table. -/
theorem cuda_error_string_returns (code : String → Int) (id : Int) :
    ∃ v, cuda_error_string (cuda_error_list code) id = Outcome.returned v := by
  obtain ⟨j, r, h1, h2⟩ := cuda_error_scan_stops id
    (cuda_error_names.map (fun n => { id := code n, value := some n.toList })) []
  simp only [List.length_nil, List.nil_append] at h1 h2
  unfold cuda_error_string cuda_error_list
  rw [h1]
  simp only [h2]
  by_cases hr : r.id = id
  · exact ⟨r.value, by simp only [hr, if_true]⟩
  · exact ⟨some "Invalid CUDA error status!".toList, by simp only [hr, if_false]⟩

/-- When no enumerator has the value `-1`, the scan stops at the first row whose code is the
argument, or at the sentinel row. -/
theorem cuda_error_scan_first (code : String → Int) (id : Int)
    (names : List String) (pre : List CUDAErrorList)
    (hcode : ∀ n ∈ names, code n ≠ -1) :
    ∃ j, cuda_error_scan id
        (names.map (fun n => ({ id := code n, value := some n.toList } : CUDAErrorList)) ++
          [cuda_error_sentinel]) pre.length = some j ∧
      (pre ++ (names.map (fun n => ({ id := code n, value := some n.toList } : CUDAErrorList))
          ++ [cuda_error_sentinel])).get? j =
        some (match names.find? (fun n => decide (code n = id)) with
          | some n => { id := code n, value := some n.toList }
          | none => cuda_error_sentinel) := by
  induction names generalizing pre with
  | nil =>
    refine ⟨pre.length, ?_, ?_⟩
    · simp [cuda_error_scan, cuda_error_sentinel]
    · simp
  | cons n rest ih =>
    have hn : code n ≠ -1 := hcode n (List.mem_cons_self _ _)
    by_cases hc : code n = id
    · refine ⟨pre.length, ?_, ?_⟩
      · simp [cuda_error_scan, hc]
      · rw [List.get?_eq_getElem?, List.getElem?_append_right (le_refl _)]
        simp [hc]
    · obtain ⟨j, h1, h2⟩ := ih (pre ++ [{ id := code n, value := some n.toList }])
        (fun m hm => hcode m (List.mem_cons_of_mem _ hm))
      refine ⟨j, ?_, ?_⟩
      · rw [List.map_cons, List.cons_append, cuda_error_scan, if_pos ⟨hc, hn⟩]
        simpa using h1
      · rw [List.find?_cons_of_neg _ (by simpa using hc)]
        simpa using h2

/-- For every code other than `-1` (no enumerator having that value), `cuda_error_string`
returns the name of the first row with that code, or the fixed string when there is none. -/
theorem cuda_error_string_spec (code : String → Int)
    (hcode : ∀ n ∈ cuda_error_names, code n ≠ -1) (id : Int) (hid : id ≠ -1) :
    cuda_error_string (cuda_error_list code) id =
      Outcome.returned (some (match cuda_error_names.find? (fun n => decide (code n = id)) with
        | some n => n.toList
        | none => "Invalid CUDA error status!".toList)) := by
  obtain ⟨j, h1, h2⟩ := cuda_error_scan_first code id cuda_error_names [] hcode
  simp only [List.length_nil, List.nil_append] at h1 h2
  unfold cuda_error_string cuda_error_list
  rw [h1]
  simp only [h2]
  cases hf : cuda_error_names.find? (fun n => decide (code n = id)) with
  | none =>
    simp only
    rw [if_neg (by simpa [cuda_error_sentinel] using hid.symm)]
  | some n =>
    have hn : code n = id := by simpa using List.find?_some hf
    simp only
    rw [if_pos hn]

/-! ## Lemmas: the assembly dump -/

/-- Fuel beyond the number of bytes left in the arena does not change the assembly dump: the
loop has ended by then. -/
theorem disasm_dump_fuel (disasm : Nat → Nat × List Char) (mem_offset : Nat) :
    ∀ (fuel cur_offset : Nat), mem_offset ≤ cur_offset + fuel → ∀ extra : Nat,
      disasm_dump disasm mem_offset (fuel + extra) cur_offset =
        disasm_dump disasm mem_offset fuel cur_offset := by
  intro fuel
  induction fuel with
  | zero =>
    intro c hc extra
    cases extra with
    | zero => rfl
    | succ e =>
      have hge : c ≥ mem_offset := by omega
      simp only [Nat.zero_add, disasm_dump, hge, if_true]
  | succ f ih =>
    intro c hc extra
    have he : f + 1 + extra = (f + extra) + 1 := by omega
    rw [he]
    simp only [disasm_dump]
    by_cases hge : c ≥ mem_offset
    · simp only [hge, if_true]
    · simp only [hge, if_false]
      by_cases hz : (disasm c).1 = 0
      · simp only [hz, if_true]
      · simp only [hz, if_false]
        rw [ih (c + (disasm c).1) (by omega) extra]

/-! ## Lemmas: entry-symbol names -/

/-- The digit value undoes the digit character. -/
theorem hex_digit_value_digit : ∀ d, d < 16 → hex_digit_value (hex_digit d) = d := by
  decide

/-- Every character printed by the conversion is a lowercase hexadecimal digit. -/
theorem hex_digit_lowercase : ∀ d, d < 16 → hex_digit d ∈ "0123456789abcdef".toList := by
  decide

/-- The eight digits printed for a 32-bit value denote that value. -/
theorem hex_value_fmt_08x (v : Nat) (hv : v < U32_MOD) : hex_value (fmt_08x v) = v := by
  have h (x : Nat) : hex_digit_value (hex_digit (x % 16)) = x % 16 :=
    hex_digit_value_digit _ (Nat.mod_lt _ (by decide))
  simp only [hex_value, fmt_08x, List.map_cons, List.map_nil, List.foldl_cons, List.foldl_nil, h]
  unfold U32_MOD at hv
  norm_num at hv ⊢
  omega

/-- The conversion prints exactly eight characters. -/
theorem fmt_08x_length (v : Nat) : (fmt_08x v).length = 8 := by
  simp [fmt_08x]

/-- The name is the prefix `enoki_` followed by the eight digits of the counter. -/
theorem kernel_name_new_eq (id : Nat) :
    kernel_name_new id = "enoki_".toList ++ fmt_08x (id % U32_MOD) := by
  unfold kernel_name_new
  apply List.take_of_length_le
  simp [fmt_08x]

/-- Names of counters that differ modulo `2 ^ 32` differ. -/
theorem kernel_name_new_inj (a b : Nat) (h : kernel_name_new a = kernel_name_new b) :
    a % U32_MOD = b % U32_MOD := by
  rw [kernel_name_new_eq, kernel_name_new_eq] at h
  have h2 := List.append_cancel_left h
  have ha := hex_value_fmt_08x (a % U32_MOD) (Nat.mod_lt _ (by decide))
  have hb := hex_value_fmt_08x (b % U32_MOD) (Nat.mod_lt _ (by decide))
  rw [← ha, ← hb, h2]

/-- The names of a concatenated trace. -/
theorem entry_symbol_names_append (a b : List Event) :
    entry_symbol_names (a ++ b) = entry_symbol_names a ++ entry_symbol_names b := by
  simp [entry_symbol_names, List.filterMap_append]

/-- The loop over the `glob` matches hands no name to the toolchain. -/
theorem entry_symbol_names_dlopen_glob (dlopen : String → Ptr) (paths : List String) (h : Ptr) :
    entry_symbol_names (dlopen_glob dlopen paths h).2 = [] := by
  induction paths generalizing h with
  | nil => rfl
  | cons p rest ih =>
    unfold dlopen_glob
    by_cases hp : dlopen p ≠ 0
    · rw [if_pos hp]; rfl
    · rw [if_neg hp]
      simp only
      have := ih (dlopen p)
      simpa [entry_symbol_names, entry_symbol_of] using this

/-- Opening the library hands no name to the toolchain. -/
theorem entry_symbol_names_open_library (env : InitEnv) (handle : Ptr) :
    entry_symbol_names (open_library env handle).2 = [] := by
  unfold open_library
  cases env.platform with
  | linux => rfl
  | other => rfl
  | apple =>
    simp only
    by_cases h0 : env.dlopen "libLLVM.dylib" = 0
    · rw [if_pos h0]
      cases env.glob with
      | none => rfl
      | some paths =>
        simp only
        have := entry_symbol_names_dlopen_glob env.dlopen paths (env.dlopen "libLLVM.dylib")
        simpa [entry_symbol_names, entry_symbol_of] using this
    · rw [if_neg h0]; rfl

/-- Resolving the entry points hands no name to the toolchain. -/
theorem entry_symbol_names_load_symbols (handle : Ptr) (dlsym : Ptr → String → Ptr)
    (names : List String) (tbl : List (String × Ptr)) :
    entry_symbol_names (load_symbols handle dlsym names tbl).2.2 = [] := by
  induction names generalizing tbl with
  | nil => rfl
  | cons n rest ih =>
    unfold load_symbols
    by_cases hn : dlsym handle n = 0
    · rw [if_pos hn]; rfl
    · rw [if_neg hn]
      simp only
      have := ih (set_fn tbl n (dlsym handle n))
      simpa [entry_symbol_names, entry_symbol_of] using this

/-- The shutdown hands no name to the toolchain. -/
theorem entry_symbol_names_shutdown (s : JitState) :
    entry_symbol_names (jit_llvm_shutdown s).2 = [] := by
  unfold jit_llvm_shutdown
  by_cases hs : (!s.jit_llvm_init_success) = true
  · rw [if_pos hs]; rfl
  · rw [if_neg hs]
    simp [entry_symbol_names, entry_symbol_of, jit_log]

/-- The detection keeps the kernel counter and adds no name to the trace. -/
theorem jit_llvm_init_detect_names (env : InitEnv) (s : JitState) (triple : List Char)
    (ev : List Event) :
    (jit_llvm_init_detect env s triple ev).state.jit_llvm_kernel_id = s.jit_llvm_kernel_id ∧
      entry_symbol_names (jit_llvm_init_detect env s triple ev).events =
        entry_symbol_names ev := by
  unfold jit_llvm_init_detect
  by_cases hw : detect_vector_width env.LLVMGetHostCPUFeatures > 1
  · simp [hw, entry_symbol_names, entry_symbol_of, jit_log]
  · simp [hw, jit_llvm_shutdown, entry_symbol_names, entry_symbol_of, jit_log]

/-- The secondary steps keep the kernel counter and add no name to the trace. -/
theorem jit_llvm_init_secondary_names (env : InitEnv) (s : JitState) (ev : List Event) :
    (jit_llvm_init_secondary env s ev).state.jit_llvm_kernel_id = s.jit_llvm_kernel_id ∧
      entry_symbol_names (jit_llvm_init_secondary env s ev).events =
        entry_symbol_names ev := by
  unfold jit_llvm_init_secondary
  by_cases h1 : env.LLVMGetGlobalContext = 0
  · simp [h1, entry_symbol_names, entry_symbol_of, jit_log]
  · by_cases h2 : env.LLVMCreateDisasm = 0
    · simp [h1, h2, entry_symbol_names, entry_symbol_of, jit_log]
    · by_cases h3 : env.LLVMSetDisasmOptions = 0
      · simp [h1, h2, h3, entry_symbol_names, entry_symbol_of, jit_log]
      · by_cases h4 : env.LLVMCreateMCJITCompilerForModule = 0
        · simp only [h1, h2, h3, h4, if_false, ne_eq, not_true_eq_false]
          cases env.mcjit_engine with
          | none =>
            simp only
            refine ⟨(jit_llvm_init_detect_names _ _ _ _).1, ?_⟩
            rw [(jit_llvm_init_detect_names _ _ _ _).2]
            simp [entry_symbol_names, entry_symbol_of]
          | some e =>
            simp only
            refine ⟨(jit_llvm_init_detect_names _ _ _ _).1, ?_⟩
            rw [(jit_llvm_init_detect_names _ _ _ _).2]
            simp [entry_symbol_names, entry_symbol_of]
        · simp only [h1, h2, h3, h4, if_false, ne_eq, not_false_eq_true, if_true]
          cases env.mcjit_engine <;>
            simp [entry_symbol_names, entry_symbol_of, jit_log]

/-- A call of `jit_llvm_init` keeps the kernel counter and hands no name to the toolchain. -/
theorem jit_llvm_init_names (env : InitEnv) (s : JitState) :
    (jit_llvm_init env s).state.jit_llvm_kernel_id = s.jit_llvm_kernel_id ∧
      entry_symbol_names (jit_llvm_init env s).events = [] := by
  unfold jit_llvm_init
  by_cases ha : s.jit_llvm_init_attempted = true
  · rw [if_pos ha]; exact ⟨rfl, rfl⟩
  · rw [if_neg ha]
    simp only
    have hlib := entry_symbol_names_open_library env s.jit_llvm_handle
    by_cases hh : (open_library env s.jit_llvm_handle).1 = 0
    · rw [if_pos hh]
      refine ⟨rfl, ?_⟩
      rw [entry_symbol_names_append, hlib]
      rfl
    · rw [if_neg hh]
      have hld := entry_symbol_names_load_symbols (open_library env s.jit_llvm_handle).1
        env.dlsym required_symbols s.fn_table
      cases hl : (load_symbols (open_library env s.jit_llvm_handle).1 env.dlsym
          required_symbols s.fn_table).2.1 with
      | some symbol =>
        refine ⟨rfl, ?_⟩
        simp only
        rw [entry_symbol_names_append, entry_symbol_names_append, hlib, hld]
        rfl
      | none =>
        simp only
        refine ⟨(jit_llvm_init_secondary_names _ _ _).1, ?_⟩
        rw [(jit_llvm_init_secondary_names _ _ _).2, entry_symbol_names_append,
          entry_symbol_names_append, hlib, hld]
        rfl

/-- A memory-manager callback keeps the kernel counter and hands no name to the toolchain. -/
theorem jit_llvm_mem_allocate_names (s : JitState) (h : Heap) (size align : Nat)
    (name : List Char) :
    (jit_llvm_mem_allocate s h size align name).state.jit_llvm_kernel_id =
        s.jit_llvm_kernel_id ∧
      entry_symbol_names (jit_llvm_mem_allocate s h size align name).events = [] := by
  refine ⟨by rw [(jit_llvm_mem_allocate_fields s h size align name).2.1], ?_⟩
  unfold jit_llvm_mem_allocate
  simp only
  by_cases hgt : (offset_align s.jit_llvm_mem_offset (if align = 0 then 16 else align) + size)
      % SIZE_MOD > s.jit_llvm_mem_size
  · rw [if_pos hgt]; rfl
  · rw [if_neg hgt]; rfl

/-- The assembly dump hands no name to the toolchain. -/
theorem disasm_dump_names (disasm : Nat → Nat × List Char) (mem_offset : Nat) :
    ∀ fuel cur_offset : Nat,
      entry_symbol_names (disasm_dump disasm mem_offset fuel cur_offset) = [] := by
  intro fuel
  induction fuel with
  | zero => intro c; rfl
  | succ f ih =>
    intro c
    simp only [disasm_dump]
    by_cases hge : c ≥ mem_offset
    · simp only [hge, if_true]; rfl
    · simp only [hge, if_false]
      by_cases hz : (disasm c).1 = 0
      · simp only [hz, if_true]; rfl
      · simp only [hz, if_false]
        rw [entry_symbol_names_append]
        by_cases hr : List.take 3 (cstr (List.dropWhile (fun c => decide (c = ' ' ∨ c = '\t'))
            (disasm c).2)) = "ret".toList
        · rw [if_pos hr]; rfl
        · rw [if_neg hr, ih]; rfl

/-- The callbacks of a code generation change nothing but the arena cursor. -/
theorem run_codegen_state (reqs : List AllocRequest) (s : JitState) (h : Heap) :
    (run_codegen reqs s h).1 =
      { s with jit_llvm_mem_offset := (run_codegen reqs s h).1.jit_llvm_mem_offset } := by
  induction reqs generalizing s h with
  | nil => rfl
  | cons r rest ih =>
    have ha : ∀ a : AllocResult, a = jit_llvm_mem_allocate s h r.size r.align r.name →
        (if a.ptr = 0 then (a.state, a.heap, a.events, false)
          else ((run_codegen rest a.state a.heap).1, (run_codegen rest a.state a.heap).2.1,
            a.events ++ (run_codegen rest a.state a.heap).2.2.1,
            (run_codegen rest a.state a.heap).2.2.2)).1 =
          { s with jit_llvm_mem_offset :=
              (if a.ptr = 0 then (a.state, a.heap, a.events, false)
                else ((run_codegen rest a.state a.heap).1,
                  (run_codegen rest a.state a.heap).2.1,
                  a.events ++ (run_codegen rest a.state a.heap).2.2.1,
                  (run_codegen rest a.state a.heap).2.2.2)).1.jit_llvm_mem_offset } := by
      intro a hae
      have hst : a.state = { s with jit_llvm_mem_offset := a.state.jit_llvm_mem_offset } := by
        rw [hae, (jit_llvm_mem_allocate_fields s h r.size r.align r.name).2.1]
      by_cases hp : a.ptr = 0
      · rw [if_pos hp]
        exact hst
      · rw [if_neg hp]
        show (run_codegen rest a.state a.heap).1 = _
        rw [ih a.state a.heap]
        rw [hst]
    unfold run_codegen
    cases hd : r.data with
    | none => exact ha _ rfl
    | some ro => exact ha _ rfl

/-- The callbacks of a code generation hand no name to the toolchain. -/
theorem run_codegen_names (reqs : List AllocRequest) (s : JitState) (h : Heap) :
    entry_symbol_names (run_codegen reqs s h).2.2.1 = [] := by
  induction reqs generalizing s h with
  | nil => rfl
  | cons r rest ih =>
    have ha : ∀ a : AllocResult, a = jit_llvm_mem_allocate s h r.size r.align r.name →
        entry_symbol_names
          (if a.ptr = 0 then (a.state, a.heap, a.events, false)
            else ((run_codegen rest a.state a.heap).1, (run_codegen rest a.state a.heap).2.1,
              a.events ++ (run_codegen rest a.state a.heap).2.2.1,
              (run_codegen rest a.state a.heap).2.2.2)).2.2.1 = [] := by
      intro a hae
      have hev : entry_symbol_names a.events = [] := by
        rw [hae]; exact (jit_llvm_mem_allocate_names s h r.size r.align r.name).2
      by_cases hp : a.ptr = 0
      · rw [if_pos hp]; exact hev
      · rw [if_neg hp]
        show entry_symbol_names (a.events ++ (run_codegen rest a.state a.heap).2.2.1) = []
        rw [entry_symbol_names_append, hev, ih]
        rfl
    unfold run_codegen
    cases hd : r.data with
    | none => exact ha _ rfl
    | some ro => exact ha _ rfl

/-- Lines 190-213 hand no name to the toolchain, never end in `jit_raise` and keep the
state. -/
theorem jit_llvm_compile_map_names (env : CompileEnv) (s1 : JitState) (buf1 : List Char)
    (k : Nat) (old : List Char) (module : Ptr) (h : Heap) (ev : List Event) :
    (jit_llvm_compile_map env s1 buf1 k old module h ev).state = s1 ∧
      (∀ fmt args, (jit_llvm_compile_map env s1 buf1 k old module h ev).outcome ≠
        Outcome.raised fmt args) ∧
      entry_symbol_names (jit_llvm_compile_map env s1 buf1 k old module h ev).events =
        entry_symbol_names ev := by
  unfold jit_llvm_compile_map
  by_cases h1 : env.mmap = MAP_FAILED
  · rw [if_pos h1]; exact ⟨rfl, fun _ _ => by simp, rfl⟩
  rw [if_neg h1]
  by_cases h2 : s1.jit_llvm_mem_offset > s1.jit_llvm_mem_size
  · rw [if_pos h2]; exact ⟨rfl, fun _ _ => by simp, rfl⟩
  rw [if_neg h2]
  by_cases h3 : env.mprotect = -1
  · rw [if_pos h3]; exact ⟨rfl, fun _ _ => by simp, rfl⟩
  rw [if_neg h3]
  by_cases h4 : get_fn s1.fn_table "LLVMRemoveModule" = 0
  · rw [if_pos h4]; exact ⟨rfl, fun _ _ => by simp, rfl⟩
  rw [if_neg h4]
  by_cases h5 : env.remove_error ≠ none
  · rw [if_pos h5]
    exact ⟨rfl, fun _ _ => by simp, by simp [entry_symbol_names, entry_symbol_of]⟩
  rw [if_neg h5]
  by_cases h6 : get_fn s1.fn_table "LLVMDisposeModule" = 0
  · rw [if_pos h6]
    exact ⟨rfl, fun _ _ => by simp, by simp [entry_symbol_names, entry_symbol_of]⟩
  rw [if_neg h6]
  exact ⟨rfl, fun _ _ => by simp, by simp [entry_symbol_names, entry_symbol_of]⟩

/-- Lines 159-213 hand no name to the toolchain, never end in `jit_raise` and keep the
kernel counter. -/
theorem jit_llvm_compile_codegen_names (env : CompileEnv) (s : JitState) (buf1 : List Char)
    (k : Nat) (old name : List Char) (h : Heap) (ev : List Event) :
    (jit_llvm_compile_codegen env s buf1 k old name h ev).state.jit_llvm_kernel_id =
        s.jit_llvm_kernel_id ∧
      (∀ fmt args, (jit_llvm_compile_codegen env s buf1 k old name h ev).outcome ≠
        Outcome.raised fmt args) ∧
      entry_symbol_names (jit_llvm_compile_codegen env s buf1 k old name h ev).events =
        entry_symbol_names ev := by
  have hk : (run_codegen env.codegen s h).1.jit_llvm_kernel_id = s.jit_llvm_kernel_id := by
    rw [run_codegen_state env.codegen s h]
  have hn := run_codegen_names env.codegen s h
  have hev : entry_symbol_names (ev ++
      [Event.llvm "LLVMAddModule" [Arg.ptr s.jit_llvm_engine, Arg.ptr env.parse_module],
       Event.llvm "LLVMGetFunctionAddress" [Arg.ptr s.jit_llvm_engine, Arg.str name]] ++
      (run_codegen env.codegen s h).2.2.1) = entry_symbol_names ev := by
    rw [entry_symbol_names_append, entry_symbol_names_append, hn]
    simp [entry_symbol_names, entry_symbol_of]
  have htr : entry_symbol_names (if env.trace = true then
      disasm_dump env.LLVMDisasmInstruction (run_codegen env.codegen s h).1.jit_llvm_mem_offset
        (run_codegen env.codegen s h).1.jit_llvm_mem_offset 0 else []) = [] := by
    by_cases ht : env.trace = true
    · rw [if_pos ht, disasm_dump_names]
    · rw [if_neg ht]; rfl
  unfold jit_llvm_compile_codegen
  by_cases h1 : get_fn s.fn_table "LLVMAddModule" = 0 ∨
      get_fn s.fn_table "LLVMGetFunctionAddress" = 0 ∨ s.jit_llvm_engine = 0
  · rw [if_pos h1]; exact ⟨rfl, fun _ _ => by simp, rfl⟩
  rw [if_neg h1]
  by_cases h2 : s.jit_llvm_mem_freed = true ∧ env.codegen ≠ []
  · rw [if_pos h2]; exact ⟨rfl, fun _ _ => by simp, rfl⟩
  rw [if_neg h2]
  by_cases ho : run_codegen_overrun env.codegen s h = true
  · rw [if_pos ho]; exact ⟨hk, fun _ _ => by simp, hev⟩
  rw [if_neg ho]
  by_cases h3 : (run_codegen env.codegen s h).2.2.2 = false
  · rw [if_pos h3]; exact ⟨hk, fun _ _ => by simp, hev⟩
  rw [if_neg h3]
  by_cases h4 : env.LLVMGetFunctionAddress ≠ (run_codegen env.codegen s h).1.jit_llvm_mem
  · rw [if_pos h4]; exact ⟨hk, fun _ _ => by simp, hev⟩
  rw [if_neg h4]
  by_cases h5 : env.trace = true ∧ 0 < (run_codegen env.codegen s h).1.jit_llvm_mem_offset ∧
      (get_fn (run_codegen env.codegen s h).1.fn_table "LLVMDisasmInstruction" = 0 ∨
        (run_codegen env.codegen s h).1.jit_llvm_disasm = 0)
  · rw [if_pos h5]; exact ⟨hk, fun _ _ => by simp, hev⟩
  rw [if_neg h5]
  obtain ⟨m1, m2, m3⟩ := jit_llvm_compile_map_names env (run_codegen env.codegen s h).1 buf1 k
    old env.parse_module (env.emit (run_codegen env.codegen s h).2.1)
    (ev ++
      [Event.llvm "LLVMAddModule" [Arg.ptr s.jit_llvm_engine, Arg.ptr env.parse_module],
       Event.llvm "LLVMGetFunctionAddress" [Arg.ptr s.jit_llvm_engine, Arg.str name]] ++
      (run_codegen env.codegen s h).2.2.1 ++
      (if env.trace = true then
        disasm_dump env.LLVMDisasmInstruction
          (run_codegen env.codegen s h).1.jit_llvm_mem_offset
          (run_codegen env.codegen s h).1.jit_llvm_mem_offset 0
       else []))
  refine ⟨by rw [m1, hk], m2, ?_⟩
  rw [m3, entry_symbol_names_append, hev, htr]
  simp

/-- Lines 141-213 never end in `jit_raise` and keep the kernel counter. They hand the new
kernel name to the toolchain exactly once, unless the first call goes through a null
function pointer. -/
theorem jit_llvm_compile_body_names (env : CompileEnv) (s : JitState) (buf1 : List Char)
    (k : Nat) (old name : List Char) (buffer_size : Nat) (h : Heap) (ev : List Event) :
    (jit_llvm_compile_body env s buf1 k old name buffer_size h ev).state.jit_llvm_kernel_id =
        s.jit_llvm_kernel_id ∧
      (∀ fmt args, (jit_llvm_compile_body env s buf1 k old name buffer_size h ev).outcome ≠
        Outcome.raised fmt args) ∧
      (((∃ what, (jit_llvm_compile_body env s buf1 k old name buffer_size h ev).outcome =
            Outcome.undefined what) ∧
          entry_symbol_names
            (jit_llvm_compile_body env s buf1 k old name buffer_size h ev).events =
            entry_symbol_names ev) ∨
        entry_symbol_names
          (jit_llvm_compile_body env s buf1 k old name buffer_size h ev).events =
          entry_symbol_names ev ++ [name]) := by
  have hcm : entry_symbol_names (ev ++ [Event.llvm "LLVMCreateMemoryBufferWithMemoryRange"
      [Arg.str buf1, Arg.int buffer_size, Arg.str name, Arg.int 0]]) =
      entry_symbol_names ev ++ [name] := by
    rw [entry_symbol_names_append]
    simp [entry_symbol_names, entry_symbol_of]
  have hcp : entry_symbol_names (ev ++ [Event.llvm "LLVMCreateMemoryBufferWithMemoryRange"
        [Arg.str buf1, Arg.int buffer_size, Arg.str name, Arg.int 0],
      Event.llvm "LLVMParseIRInContext"
        [Arg.ptr s.jit_llvm_context, Arg.ptr env.LLVMCreateMemoryBufferWithMemoryRange]]) =
      entry_symbol_names ev ++ [name] := by
    rw [entry_symbol_names_append]
    simp [entry_symbol_names, entry_symbol_of]
  unfold jit_llvm_compile_body
  by_cases h1 : get_fn s.fn_table "LLVMCreateMemoryBufferWithMemoryRange" = 0
  · rw [if_pos h1]; exact ⟨rfl, fun _ _ => by simp, Or.inl ⟨⟨_, rfl⟩, rfl⟩⟩
  rw [if_neg h1]
  by_cases h2 : env.LLVMCreateMemoryBufferWithMemoryRange = 0
  · rw [if_pos h2]; exact ⟨rfl, fun _ _ => by simp, Or.inr hcm⟩
  rw [if_neg h2]
  by_cases h3 : get_fn s.fn_table "LLVMParseIRInContext" = 0 ∨ s.jit_llvm_context = 0
  · rw [if_pos h3]; exact ⟨rfl, fun _ _ => by simp, Or.inr hcm⟩
  rw [if_neg h3]
  by_cases h4 : env.parse_error ≠ none
  · rw [if_pos h4]; exact ⟨rfl, fun _ _ => by simp, Or.inr hcp⟩
  rw [if_neg h4]
  obtain ⟨c1, c2, c3⟩ := jit_llvm_compile_codegen_names env s buf1 k old name h
    (ev ++ [Event.llvm "LLVMCreateMemoryBufferWithMemoryRange"
        [Arg.str buf1, Arg.int buffer_size, Arg.str name, Arg.int 0],
      Event.llvm "LLVMParseIRInContext"
        [Arg.ptr s.jit_llvm_context, Arg.ptr env.LLVMCreateMemoryBufferWithMemoryRange]])
  exact ⟨c1, c2, Or.inr (by rw [c3, hcp])⟩

/-! ## Lemmas: the outcomes of a compilation -/

/-- The three ways lines 125-132 can go: the old block was already freed and is freed again;
the arena has to grow and `posix_memalign` fails; or the cursor is reset, with the arena
replaced when it had to grow. -/
theorem jit_llvm_compile_reset_cases (env : CompileEnv) (s : JitState) (buffer_size : Nat) :
    (s.jit_llvm_mem_freed = true ∧
      jit_llvm_compile_reset env s buffer_size =
        (Outcome.undefined "free(jit_llvm_mem)", [])) ∨
    ((s.jit_llvm_mem_size ≤ buffer_size ∧ env.posix_memalign ≠ 0) ∧
      jit_llvm_compile_reset env s buffer_size =
        (Outcome.raised "jit_llvm_compile(): could not allocate %zu bytes of memory!"
          [Arg.int buffer_size], [Event.free s.jit_llvm_mem])) ∨
    (¬ (s.jit_llvm_mem_size ≤ buffer_size ∧ env.posix_memalign ≠ 0) ∧
      ∃ s1 ev, jit_llvm_compile_reset env s buffer_size = (Outcome.returned s1, ev) ∧
        s1.jit_llvm_kernel_id = s.jit_llvm_kernel_id ∧ entry_symbol_names ev = [] ∧
        arena_inv s1 ∧ (compile_ready s → compile_ready s1)) := by
  unfold jit_llvm_compile_reset
  by_cases hg : s.jit_llvm_mem_size ≤ buffer_size
  · rw [if_pos hg]
    by_cases hf : s.jit_llvm_mem_freed = true
    · rw [if_pos hf]; exact Or.inl ⟨hf, rfl⟩
    · rw [if_neg hf]
      by_cases hp : env.posix_memalign ≠ 0
      · rw [if_pos hp]; exact Or.inr (Or.inl ⟨⟨hg, hp⟩, rfl⟩)
      · rw [if_neg hp]
        exact Or.inr (Or.inr ⟨fun c => hp c.2, _, _, rfl, rfl, rfl, Nat.zero_le _, fun hr => hr⟩)
  · rw [if_neg hg]
    exact Or.inr (Or.inr ⟨fun c => hg c.1, _, _, rfl, rfl, rfl, Nat.zero_le _, fun hr => hr⟩)

/-- A call of `jit_llvm_compile` hands at most the name made from the kernel counter to the
toolchain. After `jit_raise` the counter is unchanged and no name was used. A call that ends
neither in `jit_raise` nor in undefined behaviour used the name exactly once and advanced the
counter by one modulo `2 ^ 32`. -/
theorem jit_llvm_compile_names (env : CompileEnv) (s : JitState) (buffer : List Char)
    (buffer_size : Nat) (h : Heap) :
    (entry_symbol_names (jit_llvm_compile env s buffer buffer_size h).events = [] ∨
      entry_symbol_names (jit_llvm_compile env s buffer buffer_size h).events =
        [kernel_name_new s.jit_llvm_kernel_id]) ∧
    (∀ fmt args, (jit_llvm_compile env s buffer buffer_size h).outcome =
        Outcome.raised fmt args →
      (jit_llvm_compile env s buffer buffer_size h).state.jit_llvm_kernel_id =
          s.jit_llvm_kernel_id ∧
        entry_symbol_names (jit_llvm_compile env s buffer buffer_size h).events = []) ∧
    ((∀ fmt args, (jit_llvm_compile env s buffer buffer_size h).outcome ≠
        Outcome.raised fmt args) →
      (∀ what, (jit_llvm_compile env s buffer buffer_size h).outcome ≠
        Outcome.undefined what) →
      entry_symbol_names (jit_llvm_compile env s buffer buffer_size h).events =
          [kernel_name_new s.jit_llvm_kernel_id] ∧
        (jit_llvm_compile env s buffer buffer_size h).state.jit_llvm_kernel_id =
          (s.jit_llvm_kernel_id + 1) % U32_MOD) := by
  rcases jit_llvm_compile_reset_cases env s buffer_size with
    ⟨_, hreset⟩ | ⟨_, hreset⟩ | ⟨_, s1, ev, hreset, hid, hev, _, _⟩
  · have hc : jit_llvm_compile env s buffer buffer_size h =
        { outcome := Outcome.undefined "free(jit_llvm_mem)"
          state := s, buffer := buffer, heap := h, events := [] } := by
      unfold jit_llvm_compile
      rw [hreset]
    rw [hc]
    exact ⟨Or.inl rfl, (fun _ _ c => by cases c), fun _ c => absurd rfl (c _)⟩
  · have hc : jit_llvm_compile env s buffer buffer_size h =
        { outcome := Outcome.raised
            "jit_llvm_compile(): could not allocate %zu bytes of memory!" [Arg.int buffer_size]
          state := { s with jit_llvm_mem_freed := decide (s.jit_llvm_mem ≠ 0) }
          buffer := buffer, heap := h, events := [Event.free s.jit_llvm_mem] } := by
      unfold jit_llvm_compile
      rw [hreset]
    rw [hc]
    exact ⟨Or.inl rfl, fun _ _ _ => ⟨rfl, rfl⟩, fun c _ => absurd rfl (c _ _)⟩
  · by_cases hnone : strstr buffer "enoki_".toList = none
    · have hc : jit_llvm_compile env s buffer buffer_size h =
          { outcome := Outcome.undefined "memcpy(kernel_name_old, nullptr, 14)"
            state := { s1 with jit_llvm_kernel_id := (s1.jit_llvm_kernel_id + 1) % U32_MOD }
            buffer := buffer, heap := h, events := ev } := by
        unfold jit_llvm_compile
        rw [hreset]
        simp only [hnone]
      rw [hc]
      exact ⟨Or.inl hev, (fun _ _ c => by cases c), fun _ c => absurd rfl (c _)⟩
    · obtain ⟨k, hk⟩ := Option.ne_none_iff_exists'.mp hnone
      by_cases hlen : k + 14 ≤ buffer.length
      · have hc : jit_llvm_compile env s buffer buffer_size h =
            jit_llvm_compile_body env
              { s1 with jit_llvm_kernel_id := (s1.jit_llvm_kernel_id + 1) % U32_MOD }
              (memcpy_into buffer k (kernel_name_new s1.jit_llvm_kernel_id)) k
              ((buffer.drop k).take 14) (kernel_name_new s1.jit_llvm_kernel_id) buffer_size h
              ev := by
          unfold jit_llvm_compile
          rw [hreset]
          simp only [hk, hlen, if_true]
        rw [hid] at hc
        obtain ⟨b1, b2, b3⟩ := jit_llvm_compile_body_names env
          { s1 with jit_llvm_kernel_id := (s.jit_llvm_kernel_id + 1) % U32_MOD }
          (memcpy_into buffer k (kernel_name_new s.jit_llvm_kernel_id)) k
          ((buffer.drop k).take 14) (kernel_name_new s.jit_llvm_kernel_id) buffer_size h ev
        rw [hc]
        rw [hev] at b3
        refine ⟨?_, fun fmt args c => absurd c (b2 fmt args), fun _ hnu => ?_⟩
        · rcases b3 with ⟨_, b4⟩ | b4
          · exact Or.inl b4
          · exact Or.inr b4
        · rcases b3 with ⟨⟨what, b4⟩, _⟩ | b4
          · exact absurd b4 (hnu what)
          · exact ⟨b4, b1⟩
      · have hc : jit_llvm_compile env s buffer buffer_size h =
            { outcome := Outcome.undefined "memcpy(kernel_name_old, kernel_name_offset, 14)"
              state := { s1 with jit_llvm_kernel_id := (s1.jit_llvm_kernel_id + 1) % U32_MOD }
              buffer := buffer, heap := h, events := ev } := by
          unfold jit_llvm_compile
          rw [hreset]
          simp only [hk, hlen, if_false]
        rw [hc]
        exact ⟨Or.inl hev, (fun _ _ c => by cases c), fun _ c => absurd rfl (c _)⟩

/-- The name depends on the counter modulo `2 ^ 32` only. -/
theorem kernel_name_new_mod (a i : Nat) :
    kernel_name_new (a % U32_MOD + i) = kernel_name_new (a + i) := by
  rw [kernel_name_new_eq, kernel_name_new_eq, Nat.mod_add_mod]

/-- One name followed by the names of the next counters. -/
theorem kernel_names_cons (id m : Nat) :
    kernel_name_new id ::
        (List.range m).map (fun i => kernel_name_new ((id + 1) % U32_MOD + i)) =
      (List.range (m + 1)).map (fun i => kernel_name_new (id + i)) := by
  rw [List.range_succ_eq_map, List.map_cons, List.map_map]
  congr 1
  apply List.map_congr_left
  intro i _
  rw [kernel_name_new_mod]
  show kernel_name_new (id + 1 + i) = kernel_name_new (id + (i + 1))
  rw [Nat.add_assoc, Nat.add_comm 1 i]

/-- Without a shutdown, the names used by a sequence of calls are the names of consecutive
counter values, starting at the counter of the first state, at most one per compile call. -/
theorem run_ops_names (ops : List Op) :
    ∀ (s : JitState) (h : Heap), (∀ op ∈ ops, op.isShutdown = false) →
      ∃ m, m ≤ ops.countP Op.isCompile ∧
        entry_symbol_names (run_ops ops s h) =
          (List.range m).map (fun i => kernel_name_new (s.jit_llvm_kernel_id + i)) := by
  induction ops with
  | nil => intro s h _; exact ⟨0, Nat.zero_le _, rfl⟩
  | cons op rest ih =>
    intro s h hsd
    have hrest : ∀ op ∈ rest, op.isShutdown = false :=
      fun o ho => hsd o (List.mem_cons_of_mem _ ho)
    cases op with
    | init env =>
      obtain ⟨m, hm, hn⟩ := ih (jit_llvm_init env s).state h hrest
      refine ⟨m, ?_, ?_⟩
      · rw [List.countP_cons_of_neg _ _ (by simp [Op.isCompile])]; exact hm
      · rw [run_ops, entry_symbol_names_append, (jit_llvm_init_names env s).2, hn,
          (jit_llvm_init_names env s).1]
        rfl
    | shutdown =>
      have := hsd Op.shutdown (List.mem_cons_self _ _)
      simp [Op.isShutdown] at this
    | free munmap kernel =>
      rw [List.countP_cons_of_neg _ _ (by simp [Op.isCompile])]
      by_cases hf : munmap = -1
      · refine ⟨0, Nat.zero_le _, ?_⟩
        simp [run_ops, jit_llvm_free, hf, entry_symbol_names]
      · obtain ⟨m, hm, hn⟩ := ih s h hrest
        refine ⟨m, hm, ?_⟩
        simp only [run_ops, jit_llvm_free, hf, if_false]
        exact hn
    | compile env buffer buffer_size =>
      rw [List.countP_cons_of_pos _ _ (by simp [Op.isCompile])]
      obtain ⟨n1, n2, n3⟩ := jit_llvm_compile_names env s buffer buffer_size h
      have hstop : entry_symbol_names (jit_llvm_compile env s buffer buffer_size h).events = [] ∨
          entry_symbol_names (jit_llvm_compile env s buffer buffer_size h).events =
            [kernel_name_new s.jit_llvm_kernel_id] →
          ∃ m, m ≤ rest.countP Op.isCompile + 1 ∧
            entry_symbol_names (jit_llvm_compile env s buffer buffer_size h).events =
              (List.range m).map (fun i => kernel_name_new (s.jit_llvm_kernel_id + i)) := by
        intro hn
        rcases hn with hn | hn
        · exact ⟨0, Nat.zero_le _, by rw [hn]; rfl⟩
        · exact ⟨1, Nat.succ_le_succ (Nat.zero_le _), by rw [hn]; rfl⟩
      cases ho : (jit_llvm_compile env s buffer buffer_size h).outcome with
      | returned kernel =>
        obtain ⟨hnm, hid⟩ := n3 (fun fmt args c => by rw [ho] at c; cases c)
          (fun what c => by rw [ho] at c; cases c)
        obtain ⟨m, hm, hn⟩ := ih (jit_llvm_compile env s buffer buffer_size h).state
          (jit_llvm_compile env s buffer buffer_size h).heap hrest
        refine ⟨m + 1, Nat.succ_le_succ hm, ?_⟩
        simp only [run_ops, ho]
        rw [entry_symbol_names_append, hnm, hn, hid, ← kernel_names_cons]
        rfl
      | raised fmt args =>
        obtain ⟨hst, hnm⟩ := n2 fmt args ho
        obtain ⟨m, hm, hn⟩ := ih (jit_llvm_compile env s buffer buffer_size h).state
          (jit_llvm_compile env s buffer buffer_size h).heap hrest
        refine ⟨m, Nat.le_succ_of_le hm, ?_⟩
        simp only [run_ops, ho]
        rw [entry_symbol_names_append, hnm, hn, hst]
        rfl
      | failed fmt args =>
        obtain ⟨m, hm, hn⟩ := hstop n1
        exact ⟨m, hm, by simp only [run_ops, ho]; exact hn⟩
      | exited status =>
        obtain ⟨m, hm, hn⟩ := hstop n1
        exact ⟨m, hm, by simp only [run_ops, ho]; exact hn⟩
      | undefined what =>
        obtain ⟨m, hm, hn⟩ := hstop n1
        exact ⟨m, hm, by simp only [run_ops, ho]; exact hn⟩
      | aborted what =>
        obtain ⟨m, hm, hn⟩ := hstop n1
        exact ⟨m, hm, by simp only [run_ops, ho]; exact hn⟩

/-- Fewer than `2 ^ 32` consecutive counter values give pairwise different names. -/
theorem kernel_names_nodup (id m : Nat) (hm : m < U32_MOD) :
    ((List.range m).map (fun i => kernel_name_new (id + i))).Nodup := by
  apply List.Nodup.map_on _ (List.nodup_range m)
  intro i hi j hj hij
  have hi2 : i < m := List.mem_range.mp hi
  have hj2 : j < m := List.mem_range.mp hj
  have hmod := kernel_name_new_inj _ _ hij
  unfold U32_MOD at hm hmod
  norm_num at hm hmod
  omega

/-! ## The claims -/

set_option maxRecDepth 4096

/-- Claim C1, failing input: with the kernel-id counter at 0 and an IR text holding the
placeholder `enoki_^^^^^^^^`, `jit_llvm_compile` returns a kernel and leaves the text with
`enoki_^^000000` in its place. Line 207 copies back 8 of the 14 bytes overwritten at line 139,
so the last six characters of the new name stay in the caller's buffer. -/
theorem jit_llvm_compile_buffer_not_restored :
    (jit_llvm_compile env_compile state_bound ir_text 42 (fun _ => 0)).outcome =
      Outcome.returned { func := 131072, size := 24 } ∧
    (jit_llvm_compile env_compile state_bound ir_text 42 (fun _ => 0)).buffer =
      "define void @enoki_^^000000() \x7b ret void \x7d".toList ++ [Char.ofNat 0] ∧
    (jit_llvm_compile env_compile state_bound ir_text 42 (fun _ => 0)).buffer ≠ ir_text := by
  decide

/-- Claim C2: in every environment in which a first `jit_llvm_init` reaches the detection
(the library opens, all entry points resolve, every secondary step succeeds), the vector width
it leaves in `jit_llvm_vector_width` is 16 when the feature string contains `+avx512f`,
otherwise 8 when it contains `+avx`, otherwise 4 when it contains `+sse4.2`, otherwise 1; and
whenever the width is 1 the call returns `false`. -/
theorem jit_llvm_init_vector_width (env : InitEnv) (s : JitState)
    (h : init_reaches_mcjit env s) (hm : env.LLVMCreateMCJITCompilerForModule = 0) :
    ("+avx512f".toList <:+: cstr env.LLVMGetHostCPUFeatures →
      (jit_llvm_init env s).state.jit_llvm_vector_width = 16) ∧
    (¬ "+avx512f".toList <:+: cstr env.LLVMGetHostCPUFeatures →
      "+avx".toList <:+: cstr env.LLVMGetHostCPUFeatures →
      (jit_llvm_init env s).state.jit_llvm_vector_width = 8) ∧
    (¬ "+avx512f".toList <:+: cstr env.LLVMGetHostCPUFeatures →
      ¬ "+avx".toList <:+: cstr env.LLVMGetHostCPUFeatures →
      "+sse4.2".toList <:+: cstr env.LLVMGetHostCPUFeatures →
      (jit_llvm_init env s).state.jit_llvm_vector_width = 4) ∧
    (¬ "+avx512f".toList <:+: cstr env.LLVMGetHostCPUFeatures →
      ¬ "+avx".toList <:+: cstr env.LLVMGetHostCPUFeatures →
      ¬ "+sse4.2".toList <:+: cstr env.LLVMGetHostCPUFeatures →
      (jit_llvm_init env s).state.jit_llvm_vector_width = 1) ∧
    ((jit_llvm_init env s).state.jit_llvm_vector_width = 1 →
      (jit_llvm_init env s).ret = false) := by
  obtain ⟨s1, ev, hr⟩ := jit_llvm_init_reaches env s h
  rw [if_neg (by simp [hm])] at hr
  obtain ⟨hw, hret⟩ := jit_llvm_init_detect_result env s1 env.LLVMGetDefaultTargetTriple ev
  rw [← hr] at hw hret
  rw [hw, hret, detect_vector_width_cases]
  simp only [← strstr_isSome]
  refine ⟨?_, ?_, ?_, ?_, ?_⟩
  · intro h1; rw [if_pos h1]
  · intro h1 h2; rw [if_neg h1, if_pos h2]
  · intro h1 h2 h3; rw [if_neg h1, if_neg h2, if_pos h3]
  · intro h1 h2 h3; rw [if_neg h1, if_neg h2, if_neg h3]
  · intro h1; rw [h1]; rfl

/-- Witness for C2: the four scenarios `+avx512f`, `+avx`, `+sse4.2` and the empty feature
string give the widths 16, 8, 4 and 1, the last one with `jit_llvm_init` returning `false`. -/
theorem jit_llvm_init_vector_width_witness :
    (jit_llvm_init (env_linux "+avx512f".toList 0) JitState.initial).state.jit_llvm_vector_width = 16 ∧
    (jit_llvm_init (env_linux "+avx".toList 0) JitState.initial).state.jit_llvm_vector_width = 8 ∧
    (jit_llvm_init (env_linux "+sse4.2".toList 0) JitState.initial).state.jit_llvm_vector_width = 4 ∧
    (jit_llvm_init (env_linux [] 0) JitState.initial).state.jit_llvm_vector_width = 1 ∧
    (jit_llvm_init (env_linux [] 0) JitState.initial).ret = false :=
  ⟨(jit_llvm_init_vector_width (env_linux "+avx512f".toList 0) JitState.initial
      (by decide) rfl).1 (by decide),
   (jit_llvm_init_vector_width (env_linux "+avx".toList 0) JitState.initial
      (by decide) rfl).2.1 (by decide) (by decide),
   (jit_llvm_init_vector_width (env_linux "+sse4.2".toList 0) JitState.initial
      (by decide) rfl).2.2.1 (by decide) (by decide) (by decide),
   (jit_llvm_init_vector_width (env_linux [] 0) JitState.initial
      (by decide) rfl).2.2.2.1 (by decide) (by decide) (by decide),
   (jit_llvm_init_vector_width (env_linux [] 0) JitState.initial
      (by decide) rfl).2.2.2.2 (by decide)⟩

/-- Claim C3, failing input: when `LLVMCreateMCJITCompilerForModule` reports failure, the
first `jit_llvm_init` returns `true` (line 347 returns `-1` from a function returning `bool`)
while `jit_llvm_init_success` stays `false`, so the second call, which only reads the cached
flag and makes no loader call, returns `false`. -/
theorem jit_llvm_init_twice_differs :
    (jit_llvm_init (env_linux "+avx".toList 1) JitState.initial).ret = true ∧
    (jit_llvm_init (env_linux "+avx".toList 1)
      (jit_llvm_init (env_linux "+avx".toList 1) JitState.initial).state).ret = false ∧
    (jit_llvm_init (env_linux "+avx".toList 1)
      (jit_llvm_init (env_linux "+avx".toList 1) JitState.initial).state).events = [] := by
  decide

/-- Claim C4, failing input: all entry points resolve, the context and the disassembler are
obtained, and `LLVMCreateMCJITCompilerForModule` reports failure. `jit_llvm_init` logs the
warning and then returns `true`, not `false`: line 347 is `return -1;`. -/
theorem jit_llvm_init_mcjit_failure_returns_true :
    init_reaches_mcjit (env_linux "+avx".toList 1) JitState.initial ∧
    (jit_llvm_init (env_linux "+avx".toList 1) JitState.initial).ret = true ∧
    (jit_llvm_init (env_linux "+avx".toList 1) JitState.initial).state.jit_llvm_init_success =
      false ∧
    Event.log LogLevel.Warn "jit_llvm_init(): could not create MCJIT: %s"
      [Arg.str "no target".toList] ∈
      (jit_llvm_init (env_linux "+avx".toList 1) JitState.initial).events := by
  decide

/-- Claim C5, counterexample: an arena of capacity 16 with cursor 0 satisfies the invariant;
a request for 32 bytes returns null and leaves the cursor at 32, above the capacity. -/
theorem arena_inv_broken_by_out_of_space :
    arena_inv (state_arena 16 0) ∧
    (jit_llvm_mem_allocate (state_arena 16 0) (fun _ => 0) 32 16 ".text".toList).ptr = 0 ∧
    (jit_llvm_mem_allocate (state_arena 16 0) (fun _ => 0) 32 16
      ".text".toList).state.jit_llvm_mem_offset = 32 ∧
    ¬ arena_inv (jit_llvm_mem_allocate (state_arena 16 0) (fun _ => 0) 32 16
      ".text".toList).state := by
  decide

/-- Claim C5, as amended: the invariant `jit_llvm_mem_offset <= jit_llvm_mem_size` holds
initially, holds after every call of `jit_llvm_mem_allocate` and
`jit_llvm_mem_allocate_data` that returns a pointer other than null (for every size and
alignment), holds after the arena reset at the start of `jit_llvm_compile`, and is preserved
by `jit_llvm_shutdown`. -/
theorem arena_inv_preserved :
    arena_inv JitState.initial ∧
    (∀ (s : JitState) (h : Heap) (size align : Nat) (name : List Char),
      (jit_llvm_mem_allocate s h size align name).ptr ≠ 0 →
      arena_inv (jit_llvm_mem_allocate s h size align name).state) ∧
    (∀ (s : JitState) (h : Heap) (size align : Nat) (name : List Char) (read_only : Int),
      (jit_llvm_mem_allocate_data s h size align name read_only).ptr ≠ 0 →
      arena_inv (jit_llvm_mem_allocate_data s h size align name read_only).state) ∧
    (∀ (env : CompileEnv) (s s1 : JitState) (buffer_size : Nat),
      (jit_llvm_compile_reset env s buffer_size).1 = Outcome.returned s1 → arena_inv s1) ∧
    (∀ s : JitState, arena_inv s → arena_inv (jit_llvm_shutdown s).1) :=
  ⟨by decide,
   jit_llvm_mem_allocate_inv,
   fun s h size align name _ hp => jit_llvm_mem_allocate_inv s h size align name hp,
   jit_llvm_compile_reset_inv,
   jit_llvm_shutdown_inv⟩

/-- Witness for C5: a successful 24-byte allocation in an arena of capacity 64 with cursor 5,
and a shutdown of that state. -/
theorem arena_inv_preserved_witness :
    (jit_llvm_mem_allocate (state_arena 64 5) (fun _ => 0) 24 16 ".text".toList).ptr = 65552 ∧
    arena_inv (jit_llvm_mem_allocate (state_arena 64 5) (fun _ => 0) 24 16
      ".text".toList).state ∧
    arena_inv (jit_llvm_shutdown (state_arena 64 5)).1 :=
  ⟨by decide,
   arena_inv_preserved.2.1 (state_arena 64 5) (fun _ => 0) 24 16 ".text".toList (by decide),
   arena_inv_preserved.2.2.2.2 (state_arena 64 5) (by decide)⟩

/-- Claim C6, failing input: capacity 1000, cursor 995, a request of 8 bytes aligned to 16.
The aligned offset is 1008, and the zero fill of line 98 runs before the capacity test of
line 103: the bytes at the offsets 1000 to 1007, past the end of the arena, are set to zero
and the call then returns null. -/
theorem jit_llvm_mem_allocate_writes_past_capacity :
    arena_inv (state_arena 1000 995) ∧
    (jit_llvm_mem_allocate (state_arena 1000 995) (fun _ => 255) 8 16 ".text".toList).ptr = 0 ∧
    (fun _ => 255 : Heap) (65536 + 1000) = 255 ∧
    (jit_llvm_mem_allocate (state_arena 1000 995) (fun _ => 255) 8 16
      ".text".toList).heap (65536 + 1000) = 0 ∧
    (jit_llvm_mem_allocate (state_arena 1000 995) (fun _ => 255) 8 16
      ".text".toList).heap (65536 + 1007) = 0 := by
  decide

/-- Claim C7, failing input: for an IR text without `enoki_` the result of `strstr` is null
and lines 138-139 copy 14 bytes from and to that null pointer; for a text that holds `enoki_`
fewer than 14 bytes before its end the copies run past the end of the text. Neither input is
rejected with an error, and by then the arena has been replaced and the kernel counter
advanced. -/
theorem jit_llvm_compile_no_placeholder_undefined :
    strstr ir_text_plain "enoki_".toList = none ∧
    (jit_llvm_compile env_compile state_bound ir_text_plain 34 (fun _ => 0)).outcome =
      Outcome.undefined "memcpy(kernel_name_old, nullptr, 14)" ∧
    (jit_llvm_compile env_compile state_bound ir_text_short 8 (fun _ => 0)).outcome =
      Outcome.undefined "memcpy(kernel_name_old, kernel_name_offset, 14)" ∧
    (jit_llvm_compile env_compile state_bound ir_text_plain 34 (fun _ => 0)).state ≠
      state_bound := by
  decide

/-- Claim C8, failing input: for the code `-1` the scan stops at the last row, whose code
equals the argument, and `cuda_error_string` returns that row's null name instead of the
fixed string. -/
theorem cuda_error_string_sentinel_null :
    cuda_error_string (cuda_error_list cuda_h) (-1) = Outcome.returned none := by
  decide

/-- Claim C9: `cuda_check_impl(CUresult)` returns without logging exactly when the code is
`CUDA_SUCCESS` or `CUDA_ERROR_DEINITIALIZED`; for every other code it hands one `Error` line
to `jit_log`, with the numeric value, the result of `cuda_error_string`, the file and the
line, and calls `exit(EXIT_FAILURE)`, a non-zero status. The overload for `cudaError_t`
returns exactly when the code is `cudaSuccess` or `cudaErrorCudartUnloading`, and logs and
exits otherwise. -/
theorem cuda_check_impl_spec (code : String → Int) (errval : Int) (file : List Char)
    (line : Int) (cudaSuccess cudaErrorCudartUnloading : Int)
    (cudaGetErrorName : Int → Option (List Char)) :
    (cuda_check_impl code errval file line = ([], Outcome.returned ()) ↔
      (errval = code "CUDA_SUCCESS" ∨ errval = code "CUDA_ERROR_DEINITIALIZED")) ∧
    (¬ (errval = code "CUDA_SUCCESS" ∨ errval = code "CUDA_ERROR_DEINITIALIZED") →
      ∃ err_msg, cuda_error_string (cuda_error_list code) errval = Outcome.returned err_msg ∧
        cuda_check_impl code errval file line =
          ([Event.log LogLevel.Error
              "cuda_check(): driver API error = %04d \"%s\" in %s:%i.\n"
              [Arg.int errval, Arg.ofCStr err_msg, Arg.str file, Arg.int line]],
           Outcome.exited EXIT_FAILURE)) ∧
    EXIT_FAILURE ≠ 0 ∧
    (cuda_check_impl_runtime cudaSuccess cudaErrorCudartUnloading cudaGetErrorName errval file
        line = ([], Outcome.returned ()) ↔
      (errval = cudaSuccess ∨ errval = cudaErrorCudartUnloading)) ∧
    (¬ (errval = cudaSuccess ∨ errval = cudaErrorCudartUnloading) →
      cuda_check_impl_runtime cudaSuccess cudaErrorCudartUnloading cudaGetErrorName errval file
        line =
          ([Event.log LogLevel.Error
              "cuda_check(): runtime API error = %04d \"%s\" in %s:%i.\n"
              [Arg.int errval, Arg.ofCStr (cudaGetErrorName errval), Arg.str file,
               Arg.int line]],
           Outcome.exited EXIT_FAILURE)) := by
  obtain ⟨v, hv⟩ := cuda_error_string_returns code errval
  refine ⟨?_, ?_, by decide, ?_, ?_⟩
  · by_cases h : errval ≠ code "CUDA_SUCCESS" ∧ errval ≠ code "CUDA_ERROR_DEINITIALIZED"
    · have hn : ¬ (errval = code "CUDA_SUCCESS" ∨ errval = code "CUDA_ERROR_DEINITIALIZED") := by
        rintro (h1 | h1)
        · exact h.1 h1
        · exact h.2 h1
      unfold cuda_check_impl
      rw [if_pos h, hv]
      simp [jit_log, hn]
    · have hy : errval = code "CUDA_SUCCESS" ∨ errval = code "CUDA_ERROR_DEINITIALIZED" := by
        by_contra hc
        exact h ⟨fun h1 => hc (Or.inl h1), fun h1 => hc (Or.inr h1)⟩
      unfold cuda_check_impl
      rw [if_neg h]
      simp [hy]
  · intro hn
    have h : errval ≠ code "CUDA_SUCCESS" ∧ errval ≠ code "CUDA_ERROR_DEINITIALIZED" :=
      ⟨fun h1 => hn (Or.inl h1), fun h1 => hn (Or.inr h1)⟩
    refine ⟨v, hv, ?_⟩
    unfold cuda_check_impl
    rw [if_pos h, hv]
    rfl
  · by_cases h : errval ≠ cudaSuccess ∧ errval ≠ cudaErrorCudartUnloading
    · have hn : ¬ (errval = cudaSuccess ∨ errval = cudaErrorCudartUnloading) := by
        rintro (h1 | h1)
        · exact h.1 h1
        · exact h.2 h1
      unfold cuda_check_impl_runtime
      rw [if_pos h]
      simp [jit_log, hn]
    · have hy : errval = cudaSuccess ∨ errval = cudaErrorCudartUnloading := by
        by_contra hc
        exact h ⟨fun h1 => hc (Or.inl h1), fun h1 => hc (Or.inr h1)⟩
      unfold cuda_check_impl_runtime
      rw [if_neg h]
      simp [hy]
  · intro hn
    have h : errval ≠ cudaSuccess ∧ errval ≠ cudaErrorCudartUnloading :=
      ⟨fun h1 => hn (Or.inl h1), fun h1 => hn (Or.inr h1)⟩
    unfold cuda_check_impl_runtime
    rw [if_pos h]
    rfl


/-- Witness for C9: the driver code 9999 is not in the table; the check logs the text
`Invalid CUDA error status!` with the value and the call site and exits with status 1. -/
theorem cuda_check_impl_spec_witness :
    ¬ ((9999 : Int) = cuda_h "CUDA_SUCCESS" ∨ (9999 : Int) = cuda_h "CUDA_ERROR_DEINITIALIZED") ∧
    cuda_check_impl cuda_h 9999 "eval.cpp".toList 120 =
      ([Event.log LogLevel.Error "cuda_check(): driver API error = %04d \"%s\" in %s:%i.\n"
          [Arg.int 9999, Arg.str "Invalid CUDA error status!".toList,
           Arg.str "eval.cpp".toList, Arg.int 120]],
       Outcome.exited 1) := by
  refine ⟨by decide, ?_⟩
  obtain ⟨m, hm, hc⟩ :=
    (cuda_check_impl_spec cuda_h 9999 "eval.cpp".toList 120 0 4 (fun _ => none)).2.1 (by decide)
  have h9 : cuda_error_string (cuda_error_list cuda_h) 9999 =
      Outcome.returned (some "Invalid CUDA error status!".toList) := by decide
  rw [hm] at h9
  cases h9
  exact hc

/-- Claim C10, counterexample: on a host without a vector ISA `jit_llvm_init` detects width 1
and calls `jit_llvm_shutdown`, which returns at its first line because `jit_llvm_init_success`
is `false`: no `dlclose` happens, the library handle, the disassembler and the engine stay
set, `jit_llvm_init_attempted` stays `true`, and a later `jit_llvm_init` returns the cached
`false` without any loader call. -/
theorem jit_llvm_shutdown_noop_after_failed_init :
    (jit_llvm_init (env_linux [] 0) JitState.initial).state.jit_llvm_vector_width = 1 ∧
    Event.dlclose 4096 ∉ (jit_llvm_init (env_linux [] 0) JitState.initial).events ∧
    (jit_llvm_shutdown (jit_llvm_init (env_linux [] 0) JitState.initial).state).2 = [] ∧
    (jit_llvm_shutdown
      (jit_llvm_init (env_linux [] 0) JitState.initial).state).1.jit_llvm_init_attempted = true ∧
    (jit_llvm_shutdown
      (jit_llvm_init (env_linux [] 0) JitState.initial).state).1.jit_llvm_handle = 4096 ∧
    (jit_llvm_shutdown
      (jit_llvm_init (env_linux [] 0) JitState.initial).state).1.jit_llvm_disasm = 16384 ∧
    (jit_llvm_shutdown
      (jit_llvm_init (env_linux [] 0) JitState.initial).state).1.jit_llvm_engine = 28672 ∧
    (jit_llvm_init (env_linux "+avx".toList 0) (jit_llvm_shutdown
      (jit_llvm_init (env_linux [] 0) JitState.initial).state).1).events = [] ∧
    (jit_llvm_init (env_linux "+avx".toList 0) (jit_llvm_shutdown
      (jit_llvm_init (env_linux [] 0) JitState.initial).state).1).ret = false := by
  decide

/-- Claim C10, as amended: in every state in which binding succeeded, `jit_llvm_shutdown`
disposes the disassembler and the engine, closes the library, and leaves both flags `false`
and every toolchain field zero; when the pointer table holds the 26 entry points the state is
the initial one, so the next `jit_llvm_init` binds exactly as the first call of the process
does. In every state with `jit_llvm_init_success` false (never bound, or attempted and
failed) `jit_llvm_shutdown` returns at once and changes nothing. -/
theorem jit_llvm_shutdown_spec (s : JitState) :
    (s.jit_llvm_init_success = true →
      (jit_llvm_shutdown s).1.jit_llvm_init_attempted = false ∧
      (jit_llvm_shutdown s).1.jit_llvm_init_success = false ∧
      (jit_llvm_shutdown s).1.jit_llvm_handle = 0 ∧
      (jit_llvm_shutdown s).1.jit_llvm_disasm = 0 ∧
      (jit_llvm_shutdown s).1.jit_llvm_engine = 0 ∧
      (jit_llvm_shutdown s).1.jit_llvm_context = 0 ∧
      (jit_llvm_shutdown s).1.jit_llvm_target_cpu = none ∧
      (jit_llvm_shutdown s).1.jit_llvm_target_features = none ∧
      (jit_llvm_shutdown s).1.jit_llvm_vector_width = 0 ∧
      (jit_llvm_shutdown s).1.jit_llvm_mem = 0 ∧
      (jit_llvm_shutdown s).1.jit_llvm_mem_size = 0 ∧
      (jit_llvm_shutdown s).1.jit_llvm_mem_offset = 0 ∧
      Event.llvm "LLVMDisasmDispose" [Arg.ptr s.jit_llvm_disasm] ∈ (jit_llvm_shutdown s).2 ∧
      Event.llvm "LLVMDisposeExecutionEngine" [Arg.ptr s.jit_llvm_engine] ∈
        (jit_llvm_shutdown s).2 ∧
      Event.dlclose s.jit_llvm_handle ∈ (jit_llvm_shutdown s).2 ∧
      (s.fn_table.map Prod.fst = required_symbols →
        (jit_llvm_shutdown s).1 = JitState.initial ∧
        ∀ env : InitEnv,
          jit_llvm_init env (jit_llvm_shutdown s).1 = jit_llvm_init env JitState.initial)) ∧
    (s.jit_llvm_init_success = false → jit_llvm_shutdown s = (s, [])) := by
  constructor
  · intro hs
    have hsd : jit_llvm_shutdown s =
        ({ fn_table := required_symbols.foldl (fun t n => set_fn t n 0) s.fn_table
           jit_llvm_handle := 0
           jit_llvm_disasm := 0
           jit_llvm_engine := 0
           jit_llvm_context := 0
           jit_llvm_target_cpu := none
           jit_llvm_target_features := none
           jit_llvm_vector_width := 0
           jit_llvm_kernel_id := 0
           jit_llvm_init_attempted := false
           jit_llvm_init_success := false
           jit_llvm_mem := 0
           jit_llvm_mem_size := 0
           jit_llvm_mem_offset := 0
           jit_llvm_mem_freed := false },
         jit_log LogLevel.Info "jit_llvm_shutdown()" [] ++
         [Event.llvm "LLVMDisasmDispose" [Arg.ptr s.jit_llvm_disasm],
          Event.llvm "LLVMDisposeExecutionEngine" [Arg.ptr s.jit_llvm_engine],
          Event.llvm "LLVMDisposeMessage" [Arg.ofCStr s.jit_llvm_target_cpu],
          Event.llvm "LLVMDisposeMessage" [Arg.ofCStr s.jit_llvm_target_features],
          Event.dlclose s.jit_llvm_handle,
          Event.free s.jit_llvm_mem]) := by
      unfold jit_llvm_shutdown
      rw [if_neg (by simp [hs])]
    rw [hsd]
    refine ⟨rfl, rfl, rfl, rfl, rfl, rfl, rfl, rfl, rfl, rfl, rfl, rfl, ?_, ?_, ?_, ?_⟩
    · simp [jit_log]
    · simp [jit_log]
    · simp [jit_log]
    · intro ht
      have he : ({ fn_table := required_symbols.foldl (fun t n => set_fn t n 0) s.fn_table
                   jit_llvm_handle := 0
                   jit_llvm_disasm := 0
                   jit_llvm_engine := 0
                   jit_llvm_context := 0
                   jit_llvm_target_cpu := none
                   jit_llvm_target_features := none
                   jit_llvm_vector_width := 0
                   jit_llvm_kernel_id := 0
                   jit_llvm_init_attempted := false
                   jit_llvm_init_success := false
                   jit_llvm_mem := 0
                   jit_llvm_mem_size := 0
                   jit_llvm_mem_offset := 0
                   jit_llvm_mem_freed := false } : JitState) = JitState.initial := by
        rw [clear_fn_table s.fn_table ht]
        rfl
      simp only [he]
      exact ⟨trivial, fun _ => trivial⟩
  · intro hs
    unfold jit_llvm_shutdown
    rw [if_pos (by simp [hs])]

/-- Witness for C10: shutting down the state left by a successful `jit_llvm_init` gives the
initial state and closes the library; shutting down the initial state changes nothing. -/
theorem jit_llvm_shutdown_spec_witness :
    state_bound.jit_llvm_init_success = true ∧
    (jit_llvm_shutdown state_bound).1 = JitState.initial ∧
    Event.dlclose 4096 ∈ (jit_llvm_shutdown state_bound).2 ∧
    jit_llvm_shutdown JitState.initial = (JitState.initial, []) :=
  ⟨by decide,
   (((jit_llvm_shutdown_spec state_bound).1 (by decide)).2.2.2.2.2.2.2.2.2.2.2.2.2.2.2
     (by decide)).1,
   ((jit_llvm_shutdown_spec state_bound).1 (by decide)).2.2.2.2.2.2.2.2.2.2.2.2.2.2.1,
   (jit_llvm_shutdown_spec JitState.initial).2 (by decide)⟩

/-- Claim C12, counterexample: bind, compile, shut down, bind again, compile. Line 401 of
`jit_llvm_shutdown` sets the kernel counter back to 0, so both compile calls use the name
`enoki_00000000`. -/
theorem entry_symbol_repeats_after_shutdown :
    entry_symbol_names (run_ops
      [Op.init (env_linux "+avx".toList 0), Op.compile env_compile ir_text 42, Op.shutdown,
       Op.init (env_linux "+avx".toList 0), Op.compile env_compile ir_text 42]
      JitState.initial (fun _ => 0)) =
      ["enoki_00000000".toList, "enoki_00000000".toList] := by
  decide

/-- Claim C12, as amended: the entry-symbol name made from a counter value is `enoki_`
followed by exactly 8 lowercase hexadecimal digits that denote the value modulo `2 ^ 32`, 14
characters in all. Each `jit_llvm_compile` call that ends neither in `jit_raise` nor in
undefined behaviour uses the name of the current counter and then advances the counter by 1
(modulo `2 ^ 32`). Consequently, for every sequence of init / compile / free operations
without a `jit_llvm_shutdown`, from any state, containing fewer than `2 ^ 32` compiles, any
two compile calls use different names. -/
theorem entry_symbol_names_unique :
    (∀ id : Nat,
      kernel_name_new id = "enoki_".toList ++ fmt_08x (id % U32_MOD) ∧
      (kernel_name_new id).length = 14 ∧
      (fmt_08x (id % U32_MOD)).length = 8 ∧
      (∀ c ∈ fmt_08x (id % U32_MOD), c ∈ "0123456789abcdef".toList) ∧
      hex_value (fmt_08x (id % U32_MOD)) = id % U32_MOD) ∧
    (∀ (env : CompileEnv) (s : JitState) (buffer : List Char) (buffer_size : Nat) (h : Heap),
      (∀ fmt args, (jit_llvm_compile env s buffer buffer_size h).outcome ≠
        Outcome.raised fmt args) →
      (∀ what, (jit_llvm_compile env s buffer buffer_size h).outcome ≠
        Outcome.undefined what) →
      entry_symbol_names (jit_llvm_compile env s buffer buffer_size h).events =
        [kernel_name_new s.jit_llvm_kernel_id] ∧
      (jit_llvm_compile env s buffer buffer_size h).state.jit_llvm_kernel_id =
        (s.jit_llvm_kernel_id + 1) % U32_MOD ∧
      (s.jit_llvm_kernel_id + 1 < U32_MOD →
        (jit_llvm_compile env s buffer buffer_size h).state.jit_llvm_kernel_id =
          s.jit_llvm_kernel_id + 1)) ∧
    (∀ (ops : List Op) (s : JitState) (h : Heap),
      (∀ op ∈ ops, op.isShutdown = false) →
      ops.countP Op.isCompile < U32_MOD →
      (entry_symbol_names (run_ops ops s h)).Nodup) := by
  refine ⟨?_, ?_, ?_⟩
  · intro id
    have hlt : id % U32_MOD < U32_MOD := Nat.mod_lt _ (by decide)
    refine ⟨kernel_name_new_eq id, ?_, fmt_08x_length _, ?_, hex_value_fmt_08x _ hlt⟩
    · rw [kernel_name_new_eq, List.length_append, fmt_08x_length]
      rfl
    · intro c hc
      unfold fmt_08x at hc
      obtain ⟨i, _, rfl⟩ := List.mem_map.mp hc
      exact hex_digit_lowercase _ (Nat.mod_lt _ (by decide))
  · intro env s buffer buffer_size h hnr hnu
    obtain ⟨hnm, hid⟩ := (jit_llvm_compile_names env s buffer buffer_size h).2.2 hnr hnu
    refine ⟨hnm, hid, fun hlt => ?_⟩
    rw [hid, Nat.mod_eq_of_lt hlt]
  · intro ops s h hsd hc
    obtain ⟨m, hm, hn⟩ := run_ops_names ops s h hsd
    rw [hn]
    exact kernel_names_nodup _ m (Nat.lt_of_le_of_lt hm hc)

/-- Witness for C12: binding followed by three compilations uses the names of the counters
0, 1 and 2, which differ. -/
theorem entry_symbol_names_unique_witness :
    entry_symbol_names (run_ops
      [Op.init (env_linux "+avx".toList 0), Op.compile env_compile ir_text 42,
       Op.compile env_compile ir_text 42, Op.free 0 { func := 131072, size := 24 },
       Op.compile env_compile ir_text 42]
      JitState.initial (fun _ => 0)) =
      ["enoki_00000000".toList, "enoki_00000001".toList, "enoki_00000002".toList] ∧
    (entry_symbol_names (run_ops
      [Op.init (env_linux "+avx".toList 0), Op.compile env_compile ir_text 42,
       Op.compile env_compile ir_text 42, Op.free 0 { func := 131072, size := 24 },
       Op.compile env_compile ir_text 42]
      JitState.initial (fun _ => 0))).Nodup :=
  ⟨by decide,
   entry_symbol_names_unique.2.2 _ JitState.initial (fun _ => 0) (by decide) (by decide)⟩

end DrJit
